import Mathlib

/-!
Shallow embedding of the 32-bit CPU emulator (assembler + interpreter) and
proofs about its specification.  Machine words are modelled as `Nat` with
explicit `% 2^32` wherever the C code performs 32-bit unsigned arithmetic.
Definitions mirror the C sources: `validation.c`, `cpu_exec.c`, `parser.c`
(`ram_store` / `ram_load`), and the assembler in `main.c`.
-/

namespace CpuEmu

/-- `RAM_SIZE` from ram.h: number of addressable 32-bit cells. -/
def RAM_SIZE : Nat := 65536

/-- `MAX_REGISTERS` from cpu.h. -/
def MAX_REGISTERS : Nat := 8

/-- `MAX_ADDRESS_REGISTERS` from cpu.h. -/
def MAX_ADDRESS_REGISTERS : Nat := 8

/-- Modulus of 32-bit unsigned arithmetic. -/
def U32 : Nat := 4294967296

/-- RAM: flat array of 32-bit words, modelled as a total function from
addresses to cell values (`ram->cells`). -/
structure RAM where
  cells : Nat → Nat

/-- Processor state, mirroring `struct CPU` in cpu.h: program counter,
8 address registers, 8 general registers, flags and the run flag. -/
structure CPU where
  pc : Nat
  address_registers : List Nat
  registers : List Nat
  zero_flag : Bool
  negative_flag : Bool
  running : Bool

/-- `cpu_init` from cpu.c: pc = 0, all registers cleared, flags and
running cleared. -/
def cpu_init : CPU :=
  { pc := 0
    address_registers := List.replicate 8 0
    registers := List.replicate 8 0
    zero_flag := false
    negative_flag := false
    running := false }

/-! ### ISA opcodes (isa.h) -/

def ISA_LOADI : Nat := 0x01
def ISA_LOADA : Nat := 0x02
def ISA_LOADM : Nat := 0x03
def ISA_STOREM : Nat := 0x04
def ISA_ADD : Nat := 0x05
def ISA_SUB : Nat := 0x06
def ISA_MLP : Nat := 0x07
def ISA_DIV : Nat := 0x08
def ISA_AND : Nat := 0x09
def ISA_OR : Nat := 0x0A
def ISA_XOR : Nat := 0x0B
def ISA_JMP : Nat := 0x0C
def ISA_JZ : Nat := 0x0D
def ISA_JNZ : Nat := 0x0E
def ISA_CMP : Nat := 0x0F
def ISA_HALT : Nat := 0xFF

/-- Addressing-mode tag `ADDR_REGISTER` (assembler.h). -/
def ADDR_REGISTER : Nat := 0

/-- Addressing-mode tag `ADDR_LITERAL` (assembler.h). -/
def ADDR_LITERAL : Nat := 1

/-- Operand-mode tag `OPERAND_REGISTER` (assembler.h). -/
def OPERAND_REGISTER : Nat := 0

/-- Operand-mode tag `OPERAND_NUMERIC` (assembler.h). -/
def OPERAND_NUMERIC : Nat := 1

/-! ### 32-bit arithmetic helpers -/

/-- uint32 addition (wraps modulo `2^32`). -/
def u32add (a b : Nat) : Nat := (a + b) % U32

/-- uint32 subtraction `a - b` (two's-complement wrap-around). -/
def u32sub (a b : Nat) : Nat := (a + (U32 - b % U32)) % U32

/-- uint32 multiplication: the low 32 bits of the product. -/
def u32mul (a b : Nat) : Nat := (a * b) % U32

/-- Reinterpret a uint32 value as a signed `int32_t` (two's complement). -/
def int32ofNat (x : Nat) : Int :=
  if x % U32 < 2147483648 then ((x % U32 : Nat) : Int)
  else ((x % U32 : Nat) : Int) - (U32 : Int)

/-! ### validation.c -/

/-- `is_addr_literal_valid`: addr < RAM_SIZE. -/
def is_addr_literal_valid (addr : Nat) : Bool :=
  if RAM_SIZE ≤ addr then false else true

/-- `is_reg_index_valid_asm`: 0 <= i < MAX_REGISTERS (takes a C `int`). -/
def is_reg_index_valid_asm (reg_index : Int) : Bool :=
  if reg_index < 0 ∨ (MAX_REGISTERS : Int) ≤ reg_index then false else true

/-- `is_addr_index_valid_asm`: 0 <= i < MAX_ADDRESS_REGISTERS. -/
def is_addr_index_valid_asm (addr_index : Int) : Bool :=
  if addr_index < 0 ∨ (MAX_ADDRESS_REGISTERS : Int) ≤ addr_index then false else true

/-- `is_memory_access_valid`: start in bounds; size = 0 always fine;
otherwise `last = start + size - 1` must not wrap below start (uint32
overflow) and must stay below RAM_SIZE. -/
def is_memory_access_valid (start size : Nat) : Bool :=
  if RAM_SIZE ≤ start then false
  else if size = 0 then true
  else
    let last := (start + size - 1) % U32
    if last < start then false
    else if RAM_SIZE ≤ last then false
    else true

/-- `is_reg_index_valid_runtime`: like the assembler form but clears
`running` on failure. -/
def is_reg_index_valid_runtime (reg_index : Nat) (cpu : CPU) : Bool × CPU :=
  if MAX_REGISTERS ≤ reg_index then (false, { cpu with running := false })
  else (true, cpu)

/-- `is_addr_index_valid_runtime`. -/
def is_addr_index_valid_runtime (addr_index : Nat) (cpu : CPU) : Bool × CPU :=
  if MAX_ADDRESS_REGISTERS ≤ addr_index then (false, { cpu with running := false })
  else (true, cpu)

/-- `is_addr_literal_valid_runtime`. -/
def is_addr_literal_valid_runtime (addr : Nat) (cpu : CPU) : Bool × CPU :=
  if RAM_SIZE ≤ addr then (false, { cpu with running := false })
  else (true, cpu)

/-- `is_memory_access_valid_runtime`: wraps `is_memory_access_valid`,
clearing `running` on failure. -/
def is_memory_access_valid_runtime (start size : Nat) (cpu : CPU) : Bool × CPU :=
  if is_memory_access_valid start size then (true, cpu)
  else (false, { cpu with running := false })

/-! ### ram_store / ram_load (parser.c, second translation unit) -/

/-- `is_address_valid` from the RAM module: address < RAM_SIZE. -/
def is_address_valid (address : Nat) : Bool := address < RAM_SIZE

/-- `ram_store`: validates the address, then writes the cell.  Returns the
C boolean result together with the (possibly updated) RAM. -/
def ram_store (ram : RAM) (address value : Nat) : Bool × RAM :=
  if is_address_valid address then
    (true, ⟨fun i => if i = address then value else ram.cells i⟩)
  else (false, ram)

/-- `ram_load`: validates the address and returns the cell value; on
failure the output parameter is untouched, modelled as `none`. -/
def ram_load (ram : RAM) (address : Nat) : Option Nat :=
  if is_address_valid address then some (ram.cells address) else none

/-! ### cpu_exec.c -/

/-- `increase_pc`: advance the program counter by `skip` words
(uint32 wrap-around). -/
def increase_pc (cpu : CPU) (skip : Nat) : CPU :=
  { cpu with pc := (cpu.pc + skip) % U32 }

/-- `get_value_in_ram`: read the word at `cpu->pc + skip` (uint32 sum);
out-of-bounds indices yield 0 and leave the processor state untouched. -/
def get_value_in_ram (ram : RAM) (cpu : CPU) (skip : Nat) : Nat :=
  let idx := (cpu.pc + skip) % U32
  if RAM_SIZE ≤ idx then 0 else ram.cells idx

/-- `handle_loadi_execution`: `R[i] := imm`, zero flag from the value,
PC advances by 3. -/
def handle_loadi_execution (ram : RAM) (cpu : CPU) : Bool × CPU × RAM :=
  let register_index := get_value_in_ram ram cpu 1
  let value := get_value_in_ram ram cpu 2
  match is_reg_index_valid_runtime register_index cpu with
  | (false, cpuE) => (false, cpuE, ram)
  | (true, cpu1) =>
    let cpu2 := { cpu1 with registers := cpu1.registers.set register_index value,
                            zero_flag := value == 0 }
    (true, increase_pc cpu2 3, ram)

/-- `handle_loada_execution`: `A[i] := literal`, PC advances by 3. -/
def handle_loada_execution (ram : RAM) (cpu : CPU) : Bool × CPU × RAM :=
  let address_index := get_value_in_ram ram cpu 1
  let address_literal := get_value_in_ram ram cpu 2
  match is_addr_index_valid_runtime address_index cpu with
  | (false, cpuE) => (false, cpuE, ram)
  | (true, cpu1) =>
    match is_addr_literal_valid_runtime address_literal cpu1 with
    | (false, cpuE) => (false, cpuE, ram)
    | (true, cpu2) =>
      let cpu3 := { cpu2 with
        address_registers := cpu2.address_registers.set address_index address_literal }
      (true, increase_pc cpu3 3, ram)

/-- `handle_loadm_execution`: load from memory (literal or via address
register) into a register, PC advances by 4. -/
def handle_loadm_execution (ram : RAM) (cpu : CPU) : Bool × CPU × RAM :=
  let register_index := get_value_in_ram ram cpu 1
  let mode := get_value_in_ram ram cpu 2
  let operand := get_value_in_ram ram cpu 3
  match is_reg_index_valid_runtime register_index cpu with
  | (false, cpuE) => (false, cpuE, ram)
  | (true, cpu1) =>
    let resolved : Bool × CPU × Nat :=
      if mode = ADDR_LITERAL then
        match is_addr_literal_valid_runtime operand cpu1 with
        | (false, cpuE) => (false, cpuE, 0)
        | (true, cpu2) => (true, cpu2, operand)
      else
        match is_addr_index_valid_runtime operand cpu1 with
        | (false, cpuE) => (false, cpuE, 0)
        | (true, cpu2) => (true, cpu2, cpu2.address_registers.getD operand 0)
    match resolved with
    | (false, cpuE, _) => (false, cpuE, ram)
    | (true, cpu2, target_address) =>
      match is_memory_access_valid_runtime target_address 1 cpu2 with
      | (false, cpuE) => (false, cpuE, ram)
      | (true, cpu3) =>
        let val := ram.cells target_address
        let cpu4 := { cpu3 with registers := cpu3.registers.set register_index val,
                                zero_flag := val == 0 }
        (true, increase_pc cpu4 4, ram)

/-- `handle_storem_execution`: store a register into memory (literal or
via address register), PC advances by 4. -/
def handle_storem_execution (ram : RAM) (cpu : CPU) : Bool × CPU × RAM :=
  let address := get_value_in_ram ram cpu 1
  let mode := get_value_in_ram ram cpu 2
  let register_index := get_value_in_ram ram cpu 3
  match is_reg_index_valid_runtime register_index cpu with
  | (false, cpuE) => (false, cpuE, ram)
  | (true, cpu1) =>
    let resolved : Bool × CPU × Nat :=
      if mode = ADDR_LITERAL then
        match is_addr_literal_valid_runtime address cpu1 with
        | (false, cpuE) => (false, cpuE, 0)
        | (true, cpu2) => (true, cpu2, address)
      else
        match is_addr_index_valid_runtime address cpu1 with
        | (false, cpuE) => (false, cpuE, 0)
        | (true, cpu2) => (true, cpu2, cpu2.address_registers.getD address 0)
    match resolved with
    | (false, cpuE, _) => (false, cpuE, ram)
    | (true, cpu2, target_address) =>
      match is_memory_access_valid_runtime target_address 1 cpu2 with
      | (false, cpuE) => (false, cpuE, ram)
      | (true, cpu3) =>
        let ram2 : RAM :=
          ⟨fun i => if i = target_address then cpu3.registers.getD register_index 0
                    else ram.cells i⟩
        (true, increase_pc cpu3 4, ram2)

/-- `handle_add_execution`: `R[dst] := R[dst] + src` (uint32 wrap), zero
flag from the result, PC advances by 4.  An unknown operand-mode tag fails
WITHOUT touching `running` (the C code only logs and returns false). -/
def handle_add_execution (ram : RAM) (cpu : CPU) : Bool × CPU × RAM :=
  let dst_index := get_value_in_ram ram cpu 1
  let mode := get_value_in_ram ram cpu 2
  let operand := get_value_in_ram ram cpu 3
  match is_reg_index_valid_runtime dst_index cpu with
  | (false, cpuE) => (false, cpuE, ram)
  | (true, cpu1) =>
    let finish : CPU → Nat → Bool × CPU × RAM := fun cpu2 src_value =>
      let a := cpu2.registers.getD dst_index 0
      let res := u32add a src_value
      let cpu3 := { cpu2 with registers := cpu2.registers.set dst_index res,
                              zero_flag := res == 0 }
      (true, increase_pc cpu3 4, ram)
    if mode = OPERAND_REGISTER then
      match is_reg_index_valid_runtime operand cpu1 with
      | (false, cpuE) => (false, cpuE, ram)
      | (true, cpu2) => finish cpu2 (cpu2.registers.getD operand 0)
    else if mode = OPERAND_NUMERIC then finish cpu1 operand
    else (false, cpu1, ram)

/-- `handle_sub_execution`: like ADD but uint32 subtraction. -/
def handle_sub_execution (ram : RAM) (cpu : CPU) : Bool × CPU × RAM :=
  let dst_index := get_value_in_ram ram cpu 1
  let mode := get_value_in_ram ram cpu 2
  let operand := get_value_in_ram ram cpu 3
  match is_reg_index_valid_runtime dst_index cpu with
  | (false, cpuE) => (false, cpuE, ram)
  | (true, cpu1) =>
    let finish : CPU → Nat → Bool × CPU × RAM := fun cpu2 src_value =>
      let a := cpu2.registers.getD dst_index 0
      let res := u32sub a src_value
      let cpu3 := { cpu2 with registers := cpu2.registers.set dst_index res,
                              zero_flag := res == 0 }
      (true, increase_pc cpu3 4, ram)
    if mode = OPERAND_REGISTER then
      match is_reg_index_valid_runtime operand cpu1 with
      | (false, cpuE) => (false, cpuE, ram)
      | (true, cpu2) => finish cpu2 (cpu2.registers.getD operand 0)
    else if mode = OPERAND_NUMERIC then finish cpu1 operand
    else (false, cpu1, ram)

/-- `handle_mlp_execution`: low 32 bits of the product. -/
def handle_mlp_execution (ram : RAM) (cpu : CPU) : Bool × CPU × RAM :=
  let dst_index := get_value_in_ram ram cpu 1
  let mode := get_value_in_ram ram cpu 2
  let operand := get_value_in_ram ram cpu 3
  match is_reg_index_valid_runtime dst_index cpu with
  | (false, cpuE) => (false, cpuE, ram)
  | (true, cpu1) =>
    let finish : CPU → Nat → Bool × CPU × RAM := fun cpu2 src_value =>
      let a := cpu2.registers.getD dst_index 0
      let prod := u32mul a src_value
      let cpu3 := { cpu2 with registers := cpu2.registers.set dst_index prod,
                              zero_flag := prod == 0 }
      (true, increase_pc cpu3 4, ram)
    if mode = OPERAND_REGISTER then
      match is_reg_index_valid_runtime operand cpu1 with
      | (false, cpuE) => (false, cpuE, ram)
      | (true, cpu2) => finish cpu2 (cpu2.registers.getD operand 0)
    else if mode = OPERAND_NUMERIC then finish cpu1 operand
    else (false, cpu1, ram)

/-- `handle_div_execution`: integer division; division by zero clears
`running`, returns failure, writes no register. -/
def handle_div_execution (ram : RAM) (cpu : CPU) : Bool × CPU × RAM :=
  let dst_index := get_value_in_ram ram cpu 1
  let mode := get_value_in_ram ram cpu 2
  let operand := get_value_in_ram ram cpu 3
  match is_reg_index_valid_runtime dst_index cpu with
  | (false, cpuE) => (false, cpuE, ram)
  | (true, cpu1) =>
    let finish : CPU → Nat → Bool × CPU × RAM := fun cpu2 divisor =>
      if divisor = 0 then (false, { cpu2 with running := false }, ram)
      else
        let dividend := cpu2.registers.getD dst_index 0
        let quotient := dividend / divisor
        let cpu3 := { cpu2 with registers := cpu2.registers.set dst_index quotient,
                                zero_flag := quotient == 0 }
        (true, increase_pc cpu3 4, ram)
    if mode = OPERAND_REGISTER then
      match is_reg_index_valid_runtime operand cpu1 with
      | (false, cpuE) => (false, cpuE, ram)
      | (true, cpu2) => finish cpu2 (cpu2.registers.getD operand 0)
    else if mode = OPERAND_NUMERIC then finish cpu1 operand
    else (false, cpu1, ram)

/-- `handle_and_execution`: bitwise AND. -/
def handle_and_execution (ram : RAM) (cpu : CPU) : Bool × CPU × RAM :=
  let dst_index := get_value_in_ram ram cpu 1
  let mode := get_value_in_ram ram cpu 2
  let operand := get_value_in_ram ram cpu 3
  match is_reg_index_valid_runtime dst_index cpu with
  | (false, cpuE) => (false, cpuE, ram)
  | (true, cpu1) =>
    let finish : CPU → Nat → Bool × CPU × RAM := fun cpu2 src_value =>
      let res := Nat.land (cpu2.registers.getD dst_index 0) src_value
      let cpu3 := { cpu2 with registers := cpu2.registers.set dst_index res,
                              zero_flag := res == 0 }
      (true, increase_pc cpu3 4, ram)
    if mode = OPERAND_REGISTER then
      match is_reg_index_valid_runtime operand cpu1 with
      | (false, cpuE) => (false, cpuE, ram)
      | (true, cpu2) => finish cpu2 (cpu2.registers.getD operand 0)
    else if mode = OPERAND_NUMERIC then finish cpu1 operand
    else (false, cpu1, ram)

/-- `handle_or_execution`: bitwise OR. -/
def handle_or_execution (ram : RAM) (cpu : CPU) : Bool × CPU × RAM :=
  let dst_index := get_value_in_ram ram cpu 1
  let mode := get_value_in_ram ram cpu 2
  let operand := get_value_in_ram ram cpu 3
  match is_reg_index_valid_runtime dst_index cpu with
  | (false, cpuE) => (false, cpuE, ram)
  | (true, cpu1) =>
    let finish : CPU → Nat → Bool × CPU × RAM := fun cpu2 src_value =>
      let res := Nat.lor (cpu2.registers.getD dst_index 0) src_value
      let cpu3 := { cpu2 with registers := cpu2.registers.set dst_index res,
                              zero_flag := res == 0 }
      (true, increase_pc cpu3 4, ram)
    if mode = OPERAND_REGISTER then
      match is_reg_index_valid_runtime operand cpu1 with
      | (false, cpuE) => (false, cpuE, ram)
      | (true, cpu2) => finish cpu2 (cpu2.registers.getD operand 0)
    else if mode = OPERAND_NUMERIC then finish cpu1 operand
    else (false, cpu1, ram)

/-- `handle_xor_execution`: bitwise XOR. -/
def handle_xor_execution (ram : RAM) (cpu : CPU) : Bool × CPU × RAM :=
  let dst_index := get_value_in_ram ram cpu 1
  let mode := get_value_in_ram ram cpu 2
  let operand := get_value_in_ram ram cpu 3
  match is_reg_index_valid_runtime dst_index cpu with
  | (false, cpuE) => (false, cpuE, ram)
  | (true, cpu1) =>
    let finish : CPU → Nat → Bool × CPU × RAM := fun cpu2 src_value =>
      let res := Nat.xor (cpu2.registers.getD dst_index 0) src_value
      let cpu3 := { cpu2 with registers := cpu2.registers.set dst_index res,
                              zero_flag := res == 0 }
      (true, increase_pc cpu3 4, ram)
    if mode = OPERAND_REGISTER then
      match is_reg_index_valid_runtime operand cpu1 with
      | (false, cpuE) => (false, cpuE, ram)
      | (true, cpu2) => finish cpu2 (cpu2.registers.getD operand 0)
    else if mode = OPERAND_NUMERIC then finish cpu1 operand
    else (false, cpu1, ram)

/-- `handle_jmp_execution`: unconditional jump, PC := target. -/
def handle_jmp_execution (ram : RAM) (cpu : CPU) : Bool × CPU × RAM :=
  let target := get_value_in_ram ram cpu 1
  match is_addr_literal_valid_runtime target cpu with
  | (false, cpuE) => (false, cpuE, ram)
  | (true, cpu1) => (true, { cpu1 with pc := target }, ram)

/-- `handle_jz_execution`: jump if zero flag set; otherwise PC += 2. -/
def handle_jz_execution (ram : RAM) (cpu : CPU) : Bool × CPU × RAM :=
  let target := get_value_in_ram ram cpu 1
  match is_addr_literal_valid_runtime target cpu with
  | (false, cpuE) => (false, cpuE, ram)
  | (true, cpu1) =>
    if cpu1.zero_flag then (true, { cpu1 with pc := target }, ram)
    else (true, increase_pc cpu1 2, ram)

/-- `handle_jnz_execution`: jump if zero flag clear; otherwise PC += 2. -/
def handle_jnz_execution (ram : RAM) (cpu : CPU) : Bool × CPU × RAM :=
  let target := get_value_in_ram ram cpu 1
  match is_addr_literal_valid_runtime target cpu with
  | (false, cpuE) => (false, cpuE, ram)
  | (true, cpu1) =>
    if cpu1.zero_flag then (true, increase_pc cpu1 2, ram)
    else (true, { cpu1 with pc := target }, ram)

/-- The `(int32_t)R[A] - (int32_t)R[B]` computation of CMP: 32-bit
two's-complement subtraction reinterpreted as a signed value. -/
def cmp_diff (a b : Nat) : Int := int32ofNat (u32sub a b)

/-- `handle_cmp_execution`: compare two registers, set zero/negative
flags from the 32-bit signed difference, write no register, PC += 3. -/
def handle_cmp_execution (ram : RAM) (cpu : CPU) : Bool × CPU × RAM :=
  let a_index := get_value_in_ram ram cpu 1
  let b_index := get_value_in_ram ram cpu 2
  match is_reg_index_valid_runtime a_index cpu with
  | (false, cpuE) => (false, cpuE, ram)
  | (true, cpu1) =>
    match is_reg_index_valid_runtime b_index cpu1 with
    | (false, cpuE) => (false, cpuE, ram)
    | (true, cpu2) =>
      let diff := cmp_diff (cpu2.registers.getD a_index 0) (cpu2.registers.getD b_index 0)
      let cpu3 := { cpu2 with zero_flag := diff == 0, negative_flag := diff < 0 }
      (true, increase_pc cpu3 3, ram)

/-- Assembly Range (`AssemblyRange` in assembler.h). -/
structure AssemblyRange where
  start_address : Nat
  end_address : Nat
  error : Bool

/-- The fetch-decode-execute loop of `cpu_run`, with explicit fuel
(the C loop has none; `none` means the fuel ran out while the loop was
still running).  Each iteration checks `running && pc != end_address`,
fetches the opcode and dispatches exactly as the C switch does. -/
def cpu_run_go (endA : Nat) : Nat → RAM → CPU → Option (Bool × CPU × RAM)
  | 0, _, _ => none
  | fuel + 1, ram, cpu =>
    if cpu.running = true ∧ cpu.pc ≠ endA then
      let instruction := get_value_in_ram ram cpu 0
      if instruction = ISA_LOADI then
        match handle_loadi_execution ram cpu with
        | (true, c, r) => cpu_run_go endA fuel r c
        | (false, c, r) => some (false, c, r)
      else if instruction = ISA_LOADA then
        match handle_loada_execution ram cpu with
        | (true, c, r) => cpu_run_go endA fuel r c
        | (false, c, r) => some (false, c, r)
      else if instruction = ISA_LOADM then
        match handle_loadm_execution ram cpu with
        | (true, c, r) => cpu_run_go endA fuel r c
        | (false, c, r) => some (false, c, r)
      else if instruction = ISA_STOREM then
        match handle_storem_execution ram cpu with
        | (true, c, r) => cpu_run_go endA fuel r c
        | (false, c, r) => some (false, c, r)
      else if instruction = ISA_ADD then
        match handle_add_execution ram cpu with
        | (true, c, r) => cpu_run_go endA fuel r c
        | (false, c, r) => some (false, c, r)
      else if instruction = ISA_SUB then
        match handle_sub_execution ram cpu with
        | (true, c, r) => cpu_run_go endA fuel r c
        | (false, c, r) => some (false, c, r)
      else if instruction = ISA_MLP then
        match handle_mlp_execution ram cpu with
        | (true, c, r) => cpu_run_go endA fuel r c
        | (false, c, r) => some (false, c, r)
      else if instruction = ISA_DIV then
        match handle_div_execution ram cpu with
        | (true, c, r) => cpu_run_go endA fuel r c
        | (false, c, r) => some (false, c, r)
      else if instruction = ISA_AND then
        match handle_and_execution ram cpu with
        | (true, c, r) => cpu_run_go endA fuel r c
        | (false, c, r) => some (false, c, r)
      else if instruction = ISA_OR then
        match handle_or_execution ram cpu with
        | (true, c, r) => cpu_run_go endA fuel r c
        | (false, c, r) => some (false, c, r)
      else if instruction = ISA_XOR then
        match handle_xor_execution ram cpu with
        | (true, c, r) => cpu_run_go endA fuel r c
        | (false, c, r) => some (false, c, r)
      else if instruction = ISA_JMP then
        match handle_jmp_execution ram cpu with
        | (true, c, r) => cpu_run_go endA fuel r c
        | (false, c, r) => some (false, c, r)
      else if instruction = ISA_JZ then
        match handle_jz_execution ram cpu with
        | (true, c, r) => cpu_run_go endA fuel r c
        | (false, c, r) => some (false, c, r)
      else if instruction = ISA_JNZ then
        match handle_jnz_execution ram cpu with
        | (true, c, r) => cpu_run_go endA fuel r c
        | (false, c, r) => some (false, c, r)
      else if instruction = ISA_CMP then
        match handle_cmp_execution ram cpu with
        | (true, c, r) => cpu_run_go endA fuel r c
        | (false, c, r) => some (false, c, r)
      else if instruction = ISA_HALT then
        cpu_run_go endA fuel ram { cpu with running := false }
      else
        some (false, { cpu with running := false }, ram)
    else
      some (true, cpu, ram)

/-- `cpu_run`: set PC to the range start, set `running`, and loop. -/
def cpu_run (ram : RAM) (cpu : CPU) (assembly_range : AssemblyRange) (fuel : Nat) :
    Option (Bool × CPU × RAM) :=
  cpu_run_go assembly_range.end_address fuel ram
    { cpu with pc := assembly_range.start_address, running := true }

/-! ### parser.c: line utilities and token parsing -/

/-- `FAILURE` sentinel from parser.h. -/
def FAILURE : Int := -1

/-- `remove_leading_whitespaces`: drop leading spaces and tabs. -/
def remove_leading_whitespaces (line : List Char) : List Char :=
  line.dropWhile (fun c => c = ' ' || c = '\t')

/-- `remove_trailing_whitespaces`: drop trailing spaces, tabs, CR, LF. -/
def remove_trailing_whitespaces (line : List Char) : List Char :=
  (line.reverse.dropWhile (fun c => c = ' ' || c = '\t' || c = '\n' || c = '\r')).reverse

/-- `strip_comments`: truncate at the first `;`. -/
def strip_comments (line : List Char) : List Char :=
  line.takeWhile (fun c => c ≠ ';')

/-- `is_empty_line`: only whitespace characters. -/
def is_empty_line (line : List Char) : Bool :=
  line.all (fun c => c = ' ' || c = '\t' || c = '\n' || c = '\r')

/-- One pass of the `strtok(…, delims)` loop with an accumulator holding
the (reversed) token being built. -/
def strtok_fold (delims : List Char) : List Char → List Char → List (List Char)
  | [], acc => if acc = [] then [] else [acc.reverse]
  | c :: rest, acc =>
    if delims.contains c then
      if acc = [] then strtok_fold delims rest []
      else acc.reverse :: strtok_fold delims rest []
    else strtok_fold delims rest (c :: acc)

/-- The `strtok(…, delims)` loop: split into maximal non-delimiter runs
(consecutive delimiters yield no empty tokens). -/
def strtok_all (delims : List Char) (l : List Char) : List (List Char) :=
  strtok_fold delims l []

/-! #### A model of C `strtol` (bases 10 and 0, 64-bit `long`) -/

/-- The whitespace class `isspace` skips at the front of `strtol` input. -/
def isStrtolSpace (c : Char) : Bool :=
  c = ' ' || c = '\t' || c = '\n' || c = '\x0B' || c = '\x0C' || c = '\r'

def isDecDigit (c : Char) : Bool := decide ('0' ≤ c ∧ c ≤ '9')

def isOctDigit (c : Char) : Bool := decide ('0' ≤ c ∧ c ≤ '7')

def isHexDigitChar (c : Char) : Bool :=
  decide (('0' ≤ c ∧ c ≤ '9') ∨ ('a' ≤ c ∧ c ≤ 'f') ∨ ('A' ≤ c ∧ c ≤ 'F'))

def decDigitVal (c : Char) : Nat := c.toNat - '0'.toNat

def hexDigitVal (c : Char) : Nat :=
  if decide ('0' ≤ c ∧ c ≤ '9') then c.toNat - '0'.toNat
  else if decide ('a' ≤ c ∧ c ≤ 'f') then c.toNat - 'a'.toNat + 10
  else c.toNat - 'A'.toNat + 10

/-- Accumulate digits left to right; returns (value, digit count, rest). -/
def take_digits (isD : Char → Bool) (val : Char → Nat) (base : Nat) :
    List Char → Nat → Nat → Nat × Nat × List Char
  | [], acc, n => (acc, n, [])
  | c :: rest, acc, n =>
    if isD c then take_digits isD val base rest (acc * base + val c) (n + 1)
    else (acc, n, c :: rest)

def LONG_MAX : Int := 9223372036854775807

def LONG_MIN : Int := -9223372036854775808

/-- Clamp a signed magnitude to `long` range; second component is the
ERANGE flag. -/
def strtol_clamp (sign : Int) (mag : Nat) : Int × Bool :=
  let v : Int := sign * (mag : Int)
  if v > LONG_MAX then (LONG_MAX, true)
  else if v < LONG_MIN then (LONG_MIN, true)
  else (v, false)

/-- `strtol(l, &end, 10)`: returns (value, end-of-parse rest, ERANGE).
With no digits the value is 0 and `end` is the original input. -/
def strtol10 (l : List Char) : Int × List Char × Bool :=
  let l1 := l.dropWhile isStrtolSpace
  let signAndRest : Int × List Char :=
    match l1 with
    | '-' :: r => (-1, r)
    | '+' :: r => (1, r)
    | _ => (1, l1)
  let (mag, n, rest) := take_digits isDecDigit decDigitVal 10 signAndRest.2 0 0
  if n = 0 then (0, l, false)
  else
    let (v, er) := strtol_clamp signAndRest.1 mag
    (v, rest, er)

/-- `strtol(l, &end, 0)`: auto-detects `0x` hex, leading-`0` octal, else
decimal. -/
def strtol0 (l : List Char) : Int × List Char × Bool :=
  let l1 := l.dropWhile isStrtolSpace
  let signAndRest : Int × List Char :=
    match l1 with
    | '-' :: r => (-1, r)
    | '+' :: r => (1, r)
    | _ => (1, l1)
  let sign := signAndRest.1
  let l2 := signAndRest.2
  let hexCase : Option (List Char) :=
    match l2 with
    | '0' :: 'x' :: r => if isHexDigitChar (r.headD ' ') then some r else none
    | '0' :: 'X' :: r => if isHexDigitChar (r.headD ' ') then some r else none
    | _ => none
  match hexCase with
  | some r =>
    let (mag, _, rest) := take_digits isHexDigitChar hexDigitVal 16 r 0 0
    let (v, er) := strtol_clamp sign mag
    (v, rest, er)
  | none =>
    match l2 with
    | '0' :: r =>
      let (mag, _, rest) := take_digits isOctDigit decDigitVal 8 r 0 0
      let (v, er) := strtol_clamp sign mag
      (v, rest, er)
    | _ =>
      let (mag, n, rest) := take_digits isDecDigit decDigitVal 10 l2 0 0
      if n = 0 then (0, l, false)
      else
        let (v, er) := strtol_clamp sign mag
        (v, rest, er)

/-- C cast of a (possibly negative) integer to `uint32_t`: reduce
modulo `2^32`. -/
def toUInt32cast (v : Int) : Nat := (v % (U32 : Int)).toNat

/-- C cast to `int` (32-bit, two's-complement wrap). -/
def toInt32cast (v : Int) : Int :=
  let m := v % (U32 : Int)
  if m < 2147483648 then m else m - (U32 : Int)

/-- `get_opcode`: linear search of the mnemonic table from isa.h. -/
def opcode_table : List (String × Nat) :=
  [("LOADI", ISA_LOADI), ("LOADA", ISA_LOADA), ("LOADM", ISA_LOADM),
   ("STOREM", ISA_STOREM), ("ADD", ISA_ADD), ("SUB", ISA_SUB),
   ("MLP", ISA_MLP), ("DIV", ISA_DIV), ("AND", ISA_AND), ("OR", ISA_OR),
   ("XOR", ISA_XOR), ("JMP", ISA_JMP), ("JZ", ISA_JZ), ("JNZ", ISA_JNZ),
   ("CMP", ISA_CMP), ("HALT", ISA_HALT)]

def get_opcode (mnemonic : List Char) : Int :=
  match opcode_table.find? (fun e => e.1.toList == mnemonic) with
  | some e => (e.2 : Int)
  | none => FAILURE

/-- `parse_register`: `R` followed by a base-10 `strtol` parse that must
consume the whole token; index must lie in [0, MAX_REGISTERS). -/
def parse_register (reg : List Char) : Int :=
  match reg with
  | 'R' :: rest =>
    let (index, endp, _) := strtol10 rest
    if endp ≠ [] then FAILURE
    else if index < 0 ∨ (MAX_REGISTERS : Int) ≤ index then FAILURE
    else index
  | _ => FAILURE

/-- `parse_directive`: `.org` prefix, then whitespace, then a base-0
`strtol` value cast to `int`. -/
def parse_directive (line : List Char) : Int :=
  if line.take 4 = ".org".toList then
    let p := (line.drop 4).dropWhile (fun c => c = ' ' || c = '\t')
    let (v, _, _) := strtol0 p
    toInt32cast v
  else FAILURE

/-- `parse_address`: literal form `0xNNNN` in [0, 0xFFFF], or address
register `A<d>` whose index is `addr[1] - '0'` (possibly negative —
only the upper bound is checked here, as in the C code). -/
def parse_address (addr : List Char) (literal_addr : Bool) : Int :=
  if literal_addr then
    if addr.headD '\x00' = '0' ∧ (addr.drop 1).headD '\x00' = 'x' then
      let (addr_val, _, _) := strtol0 addr
      if addr_val < 0 ∨ addr_val > 0xFFFF then FAILURE else addr_val
    else FAILURE
  else
    if addr.headD '\x00' = 'A' then
      let index : Int := (((addr.drop 1).headD '\x00').toNat : Int) - ('0'.toNat : Int)
      if (MAX_ADDRESS_REGISTERS : Int) ≤ index then FAILURE else index
    else FAILURE

/-- `parse_address_parenthesis`: `(0xNNNN)` (literal) or `(A<d>)`
(register indirect).  Returns the parsed value together with the
`is_literal` out-parameter (whose initial value the caller supplies). -/
def parse_address_parenthesis (addr : List Char) (literal_addr0 : Bool) : Int × Bool :=
  let c0 := addr.headD '\x00'
  let c1 := (addr.drop 1).headD '\x00'
  let c2 := (addr.drop 2).headD '\x00'
  let validAndLit : Bool × Bool :=
    if c0 = '(' ∧ c1 = '0' ∧ c2 = 'x' then (true, true)
    else if c0 = '(' ∧ c1 = 'A' then (true, false)
    else (false, literal_addr0)
  if validAndLit.1 = false then (FAILURE, validAndLit.2)
  else if validAndLit.2 then
    let (addr_val, endp, _) := strtol0 (addr.drop 1)
    if endp.headD '\x00' ≠ ')' then (FAILURE, validAndLit.2)
    else if addr_val < 0 ∨ addr_val > 0xFFFF then (FAILURE, validAndLit.2)
    else (addr_val, validAndLit.2)
  else
    let index : Int := (c2.toNat : Int) - ('0'.toNat : Int)
    if (MAX_ADDRESS_REGISTERS : Int) ≤ index then (FAILURE, validAndLit.2)
    else (index, validAndLit.2)

/-- A label entry (`struct Label` in isa.h, 63-character name capacity). -/
structure AsmLabel where
  name : List Char
  address : Nat

/-- `MAX_LABELS` from isa.h. -/
def MAX_LABELS : Nat := 256

/-- `add_label`: append unless the table is full; the stored name is
truncated to 63 characters by `strncpy`. -/
def add_label (label_name : List Char) (addr : Nat) (labels : List AsmLabel) :
    Option (List AsmLabel) :=
  if MAX_LABELS ≤ labels.length then none
  else some (labels ++ [⟨label_name.take 63, addr⟩])

/-- `find_label_addr`: first match by name; the stored uint32 address is
returned through a C `int` cast. -/
def find_label_addr (label_name : List Char) (labels : List AsmLabel) : Int :=
  match labels.find? (fun l => l.name == label_name) with
  | some l => toInt32cast (l.address : Int)
  | none => FAILURE

/-! ### main.c: the two-pass assembler -/

/-- `emit`: write a word at `cpu->pc` and post-increment the PC. -/
def emit (ram : RAM) (cpu : CPU) (value : Nat) : RAM × CPU :=
  (⟨fun i => if i = cpu.pc then value else ram.cells i⟩,
   { cpu with pc := (cpu.pc + 1) % U32 })

/-- The `if (p[0] == '#') p++;` idiom: skip an optional `#` prefix. -/
def strip_hash (s : List Char) : List Char :=
  match s with
  | '#' :: r => r
  | _ => s

/-- `handle_loadi_instruction`: emits `ISA_LOADI, reg, imm`.  The
immediate is `(uint32_t)strtol(op2, NULL, 0)` with an optional `#`
prefix and no format validation. -/
def handle_loadi_instruction (ram : RAM) (cpu : CPU) (op1 op2 : Option (List Char)) :
    Option (RAM × CPU) :=
  match op1, op2 with
  | some o1, some o2 =>
    let register_index := parse_register o1
    if register_index = FAILURE then none
    else
      let o2s := strip_hash o2
      let imm := toUInt32cast (strtol0 o2s).1
      let (ram1, cpu1) := emit ram cpu ISA_LOADI
      let (ram2, cpu2) := emit ram1 cpu1 (toUInt32cast register_index)
      let (ram3, cpu3) := emit ram2 cpu2 imm
      some (ram3, cpu3)
  | _, _ => none

/-- `handle_loada_instruction`: emits `ISA_LOADA, addr_reg, addr_lit`. -/
def handle_loada_instruction (ram : RAM) (cpu : CPU) (op1 op2 : Option (List Char)) :
    Option (RAM × CPU) :=
  match op1, op2 with
  | some o1, some o2 =>
    let addr_reg := parse_address o1 false
    let addr_lit := parse_address o2 true
    if addr_reg = FAILURE ∨ addr_lit = FAILURE then none
    else if is_addr_index_valid_asm addr_reg = false then none
    else if is_addr_literal_valid (toUInt32cast addr_lit) = false then none
    else
      let (ram1, cpu1) := emit ram cpu ISA_LOADA
      let (ram2, cpu2) := emit ram1 cpu1 (toUInt32cast addr_reg)
      let (ram3, cpu3) := emit ram2 cpu2 (toUInt32cast addr_lit)
      some (ram3, cpu3)
  | _, _ => none

/-- `handle_loadm_instruction`: emits `ISA_LOADM, reg, mode, addr`. -/
def handle_loadm_instruction (ram : RAM) (cpu : CPU) (op1 op2 : Option (List Char)) :
    Option (RAM × CPU) :=
  match op1, op2 with
  | some o1, some o2 =>
    let register_index := parse_register o1
    let parsed := parse_address_parenthesis o2 false
    let addr := parsed.1
    let is_literal := parsed.2
    if register_index = FAILURE ∨ addr = FAILURE then none
    else if is_reg_index_valid_asm register_index = false then none
    else
      let emit_all : Unit → Option (RAM × CPU) := fun _ =>
        let (ram1, cpu1) := emit ram cpu ISA_LOADM
        let (ram2, cpu2) := emit ram1 cpu1 (toUInt32cast register_index)
        let (ram3, cpu3) := emit ram2 cpu2 (if is_literal then ADDR_LITERAL else ADDR_REGISTER)
        let (ram4, cpu4) := emit ram3 cpu3 (toUInt32cast addr)
        some (ram4, cpu4)
      if is_literal then
        if is_addr_literal_valid (toUInt32cast addr) = false then none else emit_all ()
      else
        if is_addr_index_valid_asm addr = false then none else emit_all ()
  | _, _ => none

/-- `handle_storem_instruction`: emits `ISA_STOREM, addr, mode, reg`
(address operand is `op1`, register is `op2`). -/
def handle_storem_instruction (ram : RAM) (cpu : CPU) (op1 op2 : Option (List Char)) :
    Option (RAM × CPU) :=
  match op1, op2 with
  | some o1, some o2 =>
    let register_index := parse_register o2
    let parsed := parse_address_parenthesis o1 false
    let addr := parsed.1
    let is_literal := parsed.2
    if register_index = FAILURE ∨ addr = FAILURE then none
    else if is_reg_index_valid_asm register_index = false then none
    else
      let emit_all : Unit → Option (RAM × CPU) := fun _ =>
        let (ram1, cpu1) := emit ram cpu ISA_STOREM
        let (ram2, cpu2) := emit ram1 cpu1 (toUInt32cast addr)
        let (ram3, cpu3) := emit ram2 cpu2 (if is_literal then ADDR_LITERAL else ADDR_REGISTER)
        let (ram4, cpu4) := emit ram3 cpu3 (toUInt32cast register_index)
        some (ram4, cpu4)
      if is_literal then
        if is_addr_literal_valid (toUInt32cast addr) = false then none else emit_all ()
      else
        if is_addr_index_valid_asm addr = false then none else emit_all ()
  | _, _ => none

/-- `handle_arithmetic_instruction`: register-source encoding
`opcode, dst, OPERAND_REGISTER, src` or numeric-source encoding
`opcode, dst, OPERAND_NUMERIC, imm` — always 4 words. -/
def handle_arithmetic_instruction (ram : RAM) (cpu : CPU) (opcode : Nat)
    (op1 op2 : Option (List Char)) : Option (RAM × CPU) :=
  match op1, op2 with
  | some o1, some o2 =>
    let dst := parse_register o1
    if dst = FAILURE then none
    else if is_reg_index_valid_asm dst = false then none
    else
      let src_reg := parse_register o2
      if src_reg ≠ FAILURE then
        let (ram1, cpu1) := emit ram cpu opcode
        let (ram2, cpu2) := emit ram1 cpu1 (toUInt32cast dst)
        let (ram3, cpu3) := emit ram2 cpu2 OPERAND_REGISTER
        let (ram4, cpu4) := emit ram3 cpu3 (toUInt32cast src_reg)
        some (ram4, cpu4)
      else
        let p := strip_hash o2
        let (sval, endp, erange) := strtol0 p
        if endp = p ∨ endp ≠ [] then none
        else if erange = true then none
        else
          let (ram1, cpu1) := emit ram cpu opcode
          let (ram2, cpu2) := emit ram1 cpu1 (toUInt32cast dst)
          let (ram3, cpu3) := emit ram2 cpu2 OPERAND_NUMERIC
          let (ram4, cpu4) := emit ram3 cpu3 (toUInt32cast sval)
          some (ram4, cpu4)
  | _, _ => none

/-- `handle_cmp_instruction`: emits `ISA_CMP, regA, regB`. -/
def handle_cmp_instruction (ram : RAM) (cpu : CPU) (op1 op2 : Option (List Char)) :
    Option (RAM × CPU) :=
  match op1, op2 with
  | some o1, some o2 =>
    let dst_index := parse_register o1
    let src_index := parse_register o2
    if dst_index = FAILURE ∨ src_index = FAILURE then none
    else if is_reg_index_valid_asm dst_index = false then none
    else if is_reg_index_valid_asm src_index = false then none
    else
      let (ram1, cpu1) := emit ram cpu ISA_CMP
      let (ram2, cpu2) := emit ram1 cpu1 (toUInt32cast dst_index)
      let (ram3, cpu3) := emit ram2 cpu2 (toUInt32cast src_index)
      some (ram3, cpu3)
  | _, _ => none

/-- `handle_jmp_instructions` (JMP/JZ/JNZ): numeric `0x…` target or a
label name resolved against the Pass-1 table; emits `opcode, target`. -/
def handle_jmp_instructions (ram : RAM) (cpu : CPU) (opcode : Nat)
    (op1 : Option (List Char)) (labels : List AsmLabel) : Option (RAM × CPU) :=
  match op1 with
  | some o1 =>
    let addr :=
      if o1.headD '\x00' = '0' ∧
          ((o1.drop 1).headD '\x00' = 'x' ∨ (o1.drop 1).headD '\x00' = 'X') then
        parse_address o1 true
      else find_label_addr o1 labels
    if addr = FAILURE then none
    else
      let (ram1, cpu1) := emit ram cpu opcode
      let (ram2, cpu2) := emit ram1 cpu1 (toUInt32cast addr)
      some (ram2, cpu2)
  | none => none

/-- The per-line preprocessing both passes apply: trim leading, trim
trailing, strip `;` comments. -/
def preprocess_line (line : List Char) : List Char :=
  strip_comments (remove_trailing_whitespaces (remove_leading_whitespaces line))

/-- The directive handling shared by both passes: `parse_directive`, and
on failure for a line starting with `.`, the manual `.org` fallback that
tokenizes by spaces/tabs. -/
def directive_value (l : List Char) : Int :=
  let d := parse_directive l
  if d = FAILURE ∧ l.headD '\x00' = '.' then
    match strtok_all [' ', '\t'] l with
    | tok :: rest =>
      if tok = ".org".toList then
        match rest with
        | arg :: _ => toInt32cast (strtol0 arg).1
        | [] => FAILURE
      else FAILURE
    | [] => FAILURE
  else d

/-- Pass-1 instruction sizing: the word-count switch in `assemble`. -/
def instruction_size (opcode : Int) : Nat :=
  if opcode = ((ISA_LOADI : Nat) : Int) then 3
  else if opcode = ((ISA_LOADA : Nat) : Int) then 3
  else if opcode = ((ISA_LOADM : Nat) : Int) then 4
  else if opcode = ((ISA_STOREM : Nat) : Int) then 4
  else if opcode = ((ISA_ADD : Nat) : Int) ∨ opcode = ((ISA_SUB : Nat) : Int) ∨
      opcode = ((ISA_MLP : Nat) : Int) ∨ opcode = ((ISA_DIV : Nat) : Int) ∨
      opcode = ((ISA_AND : Nat) : Int) ∨ opcode = ((ISA_OR : Nat) : Int) ∨
      opcode = ((ISA_XOR : Nat) : Int) then 4
  else if opcode = ((ISA_JMP : Nat) : Int) ∨ opcode = ((ISA_JZ : Nat) : Int) ∨
      opcode = ((ISA_JNZ : Nat) : Int) then 2
  else if opcode = ((ISA_HALT : Nat) : Int) then 1
  else 1

/-- Pass-1 accumulator: cursor, discovered start address, label table. -/
structure Pass1State where
  pc_cursor : Nat
  start_address : Nat
  start_set : Bool
  labels : List AsmLabel

/-- Pass-1 treatment of a mnemonic: resolve the opcode (aborting the
assembly when unknown) and advance the cursor by the instruction size. -/
def pass1_mnemonic (st : Pass1State) (mn : List Char) : Option Pass1State :=
  let opcode := get_opcode mn
  if opcode = FAILURE then none
  else some { st with pc_cursor := (st.pc_cursor + instruction_size opcode) % U32 }

/-- One line of Pass 1: preprocessing, directive handling, label
registration, opcode sizing. -/
def pass1_line (st : Pass1State) (line : List Char) : Option Pass1State :=
  let l := preprocess_line line
  if is_empty_line l then some st
  else
    let directive_val := directive_value l
    if directive_val ≠ FAILURE then
      let pcNew := toUInt32cast directive_val
      some { st with pc_cursor := pcNew,
                     start_address := if st.start_set then st.start_address else pcNew,
                     start_set := true }
    else
      match strtok_all [' ', ',', '\t'] l with
      | [] => some st
      | first_tok :: rest_toks =>
        if first_tok.getLast? = some ':' then
          let label_name := (first_tok.take (first_tok.length - 1)).take 255
          match add_label label_name st.pc_cursor st.labels with
          | none => none
          | some labels2 =>
            match rest_toks with
            | [] => some { st with labels := labels2 }
            | mn :: _ => pass1_mnemonic { st with labels := labels2 } mn
        else pass1_mnemonic st first_tok

/-- Pass 1 over all lines. -/
def pass1 : List (List Char) → Pass1State → Option Pass1State
  | [], st => some st
  | line :: rest, st =>
    match pass1_line st line with
    | none => none
    | some st2 => pass1 rest st2

/-- Pass-2 handling of the instruction text (after any label prefix was
skipped): directive, or mnemonic dispatch to the emit helpers. -/
def pass2_text (ram : RAM) (cpu : CPU) (labels : List AsmLabel) (text : List Char) :
    Option (RAM × CPU) :=
  let directive_val := directive_value text
  if directive_val ≠ FAILURE then
    some (ram, { cpu with pc := toUInt32cast directive_val })
  else
    match strtok_all [' ', ',', '\t'] text with
    | [] => some (ram, cpu)
    | mnemonic :: ops =>
      let op1 := ops.head?
      let op2 := (ops.drop 1).head?
      let opcode := get_opcode mnemonic
      if opcode = FAILURE then none
      else if opcode = ((ISA_LOADI : Nat) : Int) then
        handle_loadi_instruction ram cpu op1 op2
      else if opcode = ((ISA_LOADA : Nat) : Int) then
        handle_loada_instruction ram cpu op1 op2
      else if opcode = ((ISA_LOADM : Nat) : Int) then
        handle_loadm_instruction ram cpu op1 op2
      else if opcode = ((ISA_STOREM : Nat) : Int) then
        handle_storem_instruction ram cpu op1 op2
      else if opcode = ((ISA_ADD : Nat) : Int) ∨ opcode = ((ISA_SUB : Nat) : Int) ∨
          opcode = ((ISA_MLP : Nat) : Int) ∨ opcode = ((ISA_DIV : Nat) : Int) ∨
          opcode = ((ISA_AND : Nat) : Int) ∨ opcode = ((ISA_OR : Nat) : Int) ∨
          opcode = ((ISA_XOR : Nat) : Int) then
        handle_arithmetic_instruction ram cpu (toUInt32cast opcode) op1 op2
      else if opcode = ((ISA_CMP : Nat) : Int) then
        handle_cmp_instruction ram cpu op1 op2
      else if opcode = ((ISA_JMP : Nat) : Int) ∨ opcode = ((ISA_JZ : Nat) : Int) ∨
          opcode = ((ISA_JNZ : Nat) : Int) then
        handle_jmp_instructions ram cpu (toUInt32cast opcode) op1 labels
      else if opcode = ((ISA_HALT : Nat) : Int) then
        some (emit ram cpu ISA_HALT)
      else none

/-- One line of Pass 2: preprocessing, skipping a `label:` prefix found
via `strchr(line, ':')`, then the instruction text. -/
def pass2_line (ram : RAM) (cpu : CPU) (labels : List AsmLabel) (line : List Char) :
    Option (RAM × CPU) :=
  let l := preprocess_line line
  if is_empty_line l then some (ram, cpu)
  else
    match l.dropWhile (fun c => c ≠ ':') with
    | [] => pass2_text ram cpu labels l
    | _ :: rest =>
      let text := remove_leading_whitespaces rest
      if is_empty_line text then some (ram, cpu)
      else pass2_text ram cpu labels text

/-- Pass 2 over all lines; on abort the partially written RAM/CPU are
returned with a `false` flag (no rollback of earlier emissions). -/
def pass2 : List (List Char) → RAM → CPU → List AsmLabel → Bool × RAM × CPU
  | [], ram, cpu, _ => (true, ram, cpu)
  | line :: rest, ram, cpu, labels =>
    match pass2_line ram cpu labels line with
    | none => (false, ram, cpu)
    | some (ram2, cpu2) => pass2 rest ram2 cpu2 labels

/-- The error sentinel range returned by `assemble_error`. -/
def assemble_error_range : AssemblyRange := ⟨0, 0, true⟩

/-- `assemble`: the source is modelled as its list of lines (the C code
reads them from a file with `fgets`).  An empty list mirrors the
`lines == NULL` failure.  Pass 1 sizes and collects labels; Pass 2 emits
through `cpu->pc`; the final PC is the range's end address. -/
def assemble (ram : RAM) (cpu : CPU) (lines : List String) : AssemblyRange × RAM × CPU :=
  match lines with
  | [] => (assemble_error_range, ram, cpu)
  | _ =>
    let charLines := lines.map String.toList
    match pass1 charLines ⟨0, 0, false, []⟩ with
    | none => (assemble_error_range, ram, cpu)
    | some st1 =>
      let startA := if st1.start_set then st1.start_address else 0
      let cpu1 := { cpu with pc := startA }
      match pass2 charLines ram cpu1 st1.labels with
      | (false, ram2, cpu2) => (assemble_error_range, ram2, cpu2)
      | (true, ram2, cpu2) => (⟨startA, cpu2.pc, false⟩, ram2, cpu2)

/-- The driver pipeline of main.c: assemble, and if assembly succeeded,
run the resulting range. -/
def assemble_and_run (lines : List String) (ram : RAM) (cpu : CPU) (fuel : Nat) :
    AssemblyRange × RAM × CPU × Option (Bool × CPU × RAM) :=
  let (range, ram1, cpu1) := assemble ram cpu lines
  if range.error then (range, ram1, cpu1, none)
  else (range, ram1, cpu1, cpu_run ram1 cpu1 range fuel)

/-! ### Concrete machines used to instantiate the theorems -/

/-- All-zero RAM (the state `ram_init` produces). -/
def zero_ram : RAM := ⟨fun _ => 0⟩

/-- RAM whose first cells are the given words, zero elsewhere. -/
def list_ram (l : List Nat) : RAM := ⟨fun i => l.getD i 0⟩

/-- Program `ADD R0, <invalid operand-mode tag 2>, 0`. -/
def ram_c2 : RAM := list_ram [ISA_ADD, 0, 2, 0]

/-- Program `DIV R0, <numeric operand> 0`. -/
def ram_c3 : RAM := list_ram [ISA_DIV, 0, 1, 0]

/-- CPU with R0 = 10 (the dividend of Scenario B). -/
def cpu_c3 : CPU := { cpu_init with registers := [10, 0, 0, 0, 0, 0, 0, 0] }

/-- Program `LOADI R9, 5` — register index out of range. -/
def ram_c5 : RAM := list_ram [ISA_LOADI, 9, 5]

/-- Program `CMP R0, R1`. -/
def ram_c6 : RAM := list_ram [ISA_CMP, 0, 1]

/-- CPU with R0 = 0x80000000 (INT32_MIN as signed) and R1 = 1. -/
def cpu_c6 : CPU := { cpu_init with registers := [2147483648, 1, 0, 0, 0, 0, 0, 0] }

/-- Program `JZ 3` then a halt word. -/
def ram_c7 : RAM := list_ram [ISA_JZ, 3, ISA_HALT, ISA_HALT]

/-- RAM with a 7 in cell 0 (to witness the wrap-around fetch). -/
def ram_c10 : RAM := ⟨fun i => if i = 0 then 7 else 0⟩

/-- CPU whose pc is the maximal uint32 value, so pc + 1 wraps to 0. -/
def cpu_c10 : CPU := { cpu_init with pc := 4294967295 }

/-- CPU whose pc is out of RAM bounds but far from the wrap point. -/
def cpu_c10w : CPU := { cpu_init with pc := 70000 }

/-- A one-word HALT program. -/
def ram_halt : RAM := list_ram [ISA_HALT]

/-- Program `LOADI R0, 5`. -/
def ram_c1w : RAM := list_ram [ISA_LOADI, 0, 5]

/-- The spec's wording of the memory-range validity condition (§4.3):
`start < 65536`, and the computation `start + size - 1` does not
overflow (for size = 0 it would wrap below zero) and its result stays
below 65536. -/
def spec_mem_range_valid (start size : Nat) : Prop :=
  start < 65536 ∧ 1 ≤ start + size ∧ start + size - 1 < 65536

/-! ## Theorems about the claims -/

/-- Claim C4: for every address `a < 65536` and every value `v`, a Memory
store of `v` at `a` succeeds and a subsequent load at `a` returns `v`;
for every `a ≥ 65536` both the store and the load fail and leave the
memory contents unchanged. -/
theorem claim_c4_store_then_load (ram : RAM) (a v : Nat) :
    (a < 65536 →
      (ram_store ram a v).1 = true ∧
      ram_load (ram_store ram a v).2 a = some v) ∧
    (65536 ≤ a →
      ram_store ram a v = (false, ram) ∧ ram_load ram a = none) := by
  constructor
  · intro h
    simp [ram_store, ram_load, is_address_valid, RAM_SIZE, h]
  · intro h
    have h2 : ¬ (a < 65536) := by omega
    simp [ram_store, ram_load, is_address_valid, RAM_SIZE, h2]

/-- Witness for C4: store/load roundtrip at address 5 with value 7, and
double failure at the out-of-bounds address 70000. -/
theorem claim_c4_witness :
    ((ram_store zero_ram 5 7).1 = true ∧
      ram_load (ram_store zero_ram 5 7).2 5 = some 7) ∧
    (ram_store zero_ram 70000 7 = (false, zero_ram) ∧
      ram_load zero_ram 70000 = none) :=
  ⟨(claim_c4_store_then_load zero_ram 5 7).1 (by decide),
   (claim_c4_store_then_load zero_ram 70000 7).2 (by decide)⟩

/-- Claim C8 counterexample: at start = 0, size = 0 the validator
accepts the range (the code special-cases size = 0), while the spec's
condition — `start + size - 1` computed without overflow and < 65536 —
rejects it, because 0 + 0 - 1 wraps below zero. -/
theorem claim_c8_counterexample :
    ¬ (is_memory_access_valid 0 0 = true ↔ spec_mem_range_valid 0 0) := by
  intro h
  have hcode : is_memory_access_valid 0 0 = true := by decide
  have hspec := h.mp hcode
  simp [spec_mem_range_valid] at hspec

/-- Claim C8 (amended): for uint32 inputs the validator returns success
iff `start < 65536` and (`size = 0`, or the mathematical
`start + size - 1` is below 65536 — which for uint32 inputs is exactly
the code's wrap-around overflow check). -/
theorem claim_c8_amended (start size : Nat) (hs : start < U32) (hz : size < U32) :
    is_memory_access_valid start size = true ↔
      start < 65536 ∧ (size = 0 ∨ start + size - 1 < 65536) := by
  unfold is_memory_access_valid
  simp only [U32, RAM_SIZE] at *
  split_ifs <;> simp <;> omega

/-- Witness for C8 at start = 0, size = 1. -/
theorem claim_c8_witness :
    is_memory_access_valid 0 1 = true ↔ 0 < 65536 ∧ (1 = 0 ∨ 0 + 1 - 1 < 65536) :=
  claim_c8_amended 0 1 (by decide) (by decide)

/-- Claim C2 (code bug): executing `ADD R0` with the invalid operand-mode
tag 2 makes the run return failure — execution has stopped with a fatal
error — yet `running` is left `true`: the invalid-operand-mode branch of
the ADD handler returns false without clearing `running`, contradicting
the handlers' documented contract that `running` is set false on error. -/
theorem claim_c2_code_bug :
    (cpu_run ram_c2 cpu_init ⟨0, 4, false⟩ 3).map
        (fun r => (r.1, r.2.1.running)) = some (false, true) := by
  decide

/-- Claim C6 counterexample: comparing R0 = 0x80000000 with R1 = 1, the
mathematical signed difference of the two registers (−2^31 − 1) is
negative, yet the executed CMP succeeds with the negative flag clear,
because the int32 subtraction wraps around. -/
theorem claim_c6_counterexample :
    int32ofNat (cpu_c6.registers.getD 0 0) - int32ofNat (cpu_c6.registers.getD 1 0) < 0 ∧
    (handle_cmp_execution ram_c6 cpu_c6).1 = true ∧
    (handle_cmp_execution ram_c6 cpu_c6).2.1.negative_flag = false := by
  refine ⟨by decide, by decide, by decide⟩

/-- The wrapped signed difference is zero exactly when the two uint32
values are equal. -/
theorem cmp_diff_eq_zero_iff (a b : Nat) : cmp_diff a b = 0 ↔ a % U32 = b % U32 := by
  unfold cmp_diff int32ofNat u32sub
  simp only [U32]
  split_ifs with h
  · constructor <;> intro hh <;> omega
  · constructor <;> intro hh <;> omega

/-- Claim C6 (amended): for valid register operands, CMP computes the
32-bit two's-complement (wrap-around) signed difference of the two named
registers, sets the zero flag exactly when that wrapped difference is
zero — equivalently, exactly when the registers are equal as uint32
values — and the negative flag exactly when the wrapped difference is
negative; it writes back to no register and advances the PC by 3. -/
theorem claim_c6_amended (ram : RAM) (cpu : CPU)
    (h1 : get_value_in_ram ram cpu 1 < MAX_REGISTERS)
    (h2 : get_value_in_ram ram cpu 2 < MAX_REGISTERS) :
    handle_cmp_execution ram cpu =
      (true,
       { cpu with
          zero_flag :=
            cmp_diff (cpu.registers.getD (get_value_in_ram ram cpu 1) 0)
                (cpu.registers.getD (get_value_in_ram ram cpu 2) 0) == 0,
          negative_flag :=
            decide (cmp_diff (cpu.registers.getD (get_value_in_ram ram cpu 1) 0)
                (cpu.registers.getD (get_value_in_ram ram cpu 2) 0) < 0),
          pc := (cpu.pc + 3) % U32 }, ram) ∧
    (∀ a b : Nat, cmp_diff a b = 0 ↔ a % U32 = b % U32) ∧
    (handle_cmp_execution ram cpu).2.1.registers = cpu.registers := by
  have hne1 : ¬ (MAX_REGISTERS ≤ get_value_in_ram ram cpu 1) := by omega
  have hne2 : ¬ (MAX_REGISTERS ≤ get_value_in_ram ram cpu 2) := by omega
  have hmain : handle_cmp_execution ram cpu =
      (true,
       { cpu with
          zero_flag :=
            cmp_diff (cpu.registers.getD (get_value_in_ram ram cpu 1) 0)
                (cpu.registers.getD (get_value_in_ram ram cpu 2) 0) == 0,
          negative_flag :=
            decide (cmp_diff (cpu.registers.getD (get_value_in_ram ram cpu 1) 0)
                (cpu.registers.getD (get_value_in_ram ram cpu 2) 0) < 0),
          pc := (cpu.pc + 3) % U32 }, ram) := by
    simp [handle_cmp_execution, is_reg_index_valid_runtime, hne1, hne2, increase_pc]
  refine ⟨hmain, fun a b => cmp_diff_eq_zero_iff a b, ?_⟩
  rw [hmain]

/-- Witness for C6: the concrete CMP from the counterexample machine
leaves all registers untouched. -/
theorem claim_c6_witness :
    (handle_cmp_execution ram_c6 cpu_c6).2.1.registers = cpu_c6.registers :=
  (claim_c6_amended ram_c6 cpu_c6 (by decide) (by decide)).2.2

/-- Claim C10 counterexample: with pc = 2^32 − 1 and offset 1 the
mathematical pc + offset (2^32) is ≥ 65536, so the claim says the fetch
returns 0 — but the uint32 index wraps to 0, which is in bounds, and the
accessor returns the cell stored there (7). -/
theorem claim_c10_counterexample :
    65536 ≤ cpu_c10.pc + 1 ∧
    get_value_in_ram ram_c10 cpu_c10 1 = 7 ∧ (7 : Nat) ≠ 0 := by
  refine ⟨by decide, by decide, by decide⟩

/-- Claim C10 (amended): when the uint32-computed fetch index
(pc + offset mod 2^32) is ≥ 65536, the accessor returns 0 and never
touches the processor state; a handler then simply proceeds with the 0
value — e.g. LOADI whose operand fetches are both out of bounds succeeds,
loads 0 into R0, and leaves `running` unchanged. -/
theorem claim_c10_amended (ram : RAM) (cpu : CPU) (skip : Nat) :
    (65536 ≤ (cpu.pc + skip) % U32 → get_value_in_ram ram cpu skip = 0) ∧
    (65536 ≤ (cpu.pc + 1) % U32 → 65536 ≤ (cpu.pc + 2) % U32 →
      handle_loadi_execution ram cpu =
        (true, increase_pc { cpu with registers := cpu.registers.set 0 0,
                                      zero_flag := true } 3, ram)) := by
  constructor
  · intro h
    simp [get_value_in_ram, RAM_SIZE, h]
  · intro h1 h2
    have e1 : get_value_in_ram ram cpu 1 = 0 := by
      simp [get_value_in_ram, RAM_SIZE, h1]
    have e2 : get_value_in_ram ram cpu 2 = 0 := by
      simp [get_value_in_ram, RAM_SIZE, h2]
    simp [handle_loadi_execution, e1, e2, is_reg_index_valid_runtime, MAX_REGISTERS]

/-- Witness for C10 at pc = 70000 (all fetches out of bounds). -/
theorem claim_c10_witness :
    get_value_in_ram zero_ram cpu_c10w 1 = 0 ∧
    handle_loadi_execution zero_ram cpu_c10w =
      (true, increase_pc { cpu_c10w with registers := cpu_c10w.registers.set 0 0,
                                         zero_flag := true } 3, zero_ram) :=
  ⟨(claim_c10_amended zero_ram cpu_c10w 1).1 (by decide),
   (claim_c10_amended zero_ram cpu_c10w 1).2 (by decide) (by decide)⟩

/-- Claim C7: for JZ (resp. JNZ) with an in-bounds target, the PC is
assigned the target when the zero flag is set (resp. clear), and advances
by exactly 2 words otherwise; both outcomes are successful. -/
theorem claim_c7_conditional_jumps (ram : RAM) (cpu : CPU)
    (ht : get_value_in_ram ram cpu 1 < RAM_SIZE) :
    ((cpu.zero_flag = true →
        handle_jz_execution ram cpu =
          (true, { cpu with pc := get_value_in_ram ram cpu 1 }, ram)) ∧
     (cpu.zero_flag = false →
        handle_jz_execution ram cpu =
          (true, { cpu with pc := (cpu.pc + 2) % U32 }, ram))) ∧
    ((cpu.zero_flag = false →
        handle_jnz_execution ram cpu =
          (true, { cpu with pc := get_value_in_ram ram cpu 1 }, ram)) ∧
     (cpu.zero_flag = true →
        handle_jnz_execution ram cpu =
          (true, { cpu with pc := (cpu.pc + 2) % U32 }, ram))) := by
  have hne : ¬ (RAM_SIZE ≤ get_value_in_ram ram cpu 1) := by omega
  refine ⟨⟨fun hz => ?_, fun hz => ?_⟩, ⟨fun hz => ?_, fun hz => ?_⟩⟩ <;>
    simp [handle_jz_execution, handle_jnz_execution, is_addr_literal_valid_runtime,
      hne, hz, increase_pc]

/-- Witness for C7: `JZ 3` with the zero flag clear advances the PC from
0 to 2. -/
theorem claim_c7_witness :
    handle_jz_execution ram_c7 cpu_init =
      (true, { cpu_init with pc := (cpu_init.pc + 2) % U32 }, ram_c7) :=
  ((claim_c7_conditional_jumps ram_c7 cpu_init (by decide)).1).2 (by decide)

/-- Helper: the DIV handler with a valid destination register and a
resolved divisor of zero fails, clears `running`, and mutates nothing
else (in particular no register). -/
theorem handle_div_zero_divisor (ram : RAM) (cpu : CPU)
    (h1 : get_value_in_ram ram cpu 1 < MAX_REGISTERS)
    (hd : (get_value_in_ram ram cpu 2 = OPERAND_REGISTER ∧
            get_value_in_ram ram cpu 3 < MAX_REGISTERS ∧
            cpu.registers.getD (get_value_in_ram ram cpu 3) 0 = 0) ∨
          (get_value_in_ram ram cpu 2 = OPERAND_NUMERIC ∧
            get_value_in_ram ram cpu 3 = 0)) :
    handle_div_execution ram cpu = (false, { cpu with running := false }, ram) := by
  have hn1 : ¬ (MAX_REGISTERS ≤ get_value_in_ram ram cpu 1) := by omega
  rcases hd with ⟨hm, h3, hz⟩ | ⟨hm, hz⟩
  · have hn3 : ¬ (MAX_REGISTERS ≤ get_value_in_ram ram cpu 3) := by omega
    simp [handle_div_execution, is_reg_index_valid_runtime, hn1, hn3, hm]
    simpa [List.getD] using hz
  · simp [handle_div_execution, is_reg_index_valid_runtime, hn1, hm, hz,
      OPERAND_REGISTER, OPERAND_NUMERIC]

/-- Claim C3: a run whose first instruction is DIV with a resolved
divisor of zero fails: the run call returns failure, `running` is set
false, and the registers — in particular the destination register — are
left unmodified (no write-back occurs). -/
theorem claim_c3_div_by_zero (ram : RAM) (cpu : CPU) (startA endA fuel : Nat)
    (hne : startA ≠ endA)
    (h0 : get_value_in_ram ram { cpu with pc := startA, running := true } 0 = ISA_DIV)
    (h1 : get_value_in_ram ram { cpu with pc := startA, running := true } 1 < MAX_REGISTERS)
    (hd : (get_value_in_ram ram { cpu with pc := startA, running := true } 2 = OPERAND_REGISTER ∧
            get_value_in_ram ram { cpu with pc := startA, running := true } 3 < MAX_REGISTERS ∧
            cpu.registers.getD
              (get_value_in_ram ram { cpu with pc := startA, running := true } 3) 0 = 0) ∨
          (get_value_in_ram ram { cpu with pc := startA, running := true } 2 = OPERAND_NUMERIC ∧
            get_value_in_ram ram { cpu with pc := startA, running := true } 3 = 0)) :
    cpu_run ram cpu ⟨startA, endA, false⟩ (fuel + 1) =
      some (false, { cpu with pc := startA, running := false }, ram) := by
  have hdiv := handle_div_zero_divisor ram { cpu with pc := startA, running := true } h1 hd
  unfold cpu_run
  simp only [cpu_run_go]
  rw [if_pos ⟨by trivial, hne⟩]
  simp only [h0]
  norm_num [ISA_LOADI, ISA_LOADA, ISA_LOADM, ISA_STOREM, ISA_ADD, ISA_SUB,
    ISA_MLP, ISA_DIV]
  rw [hdiv]

/-- Witness for C3: Scenario B's core — DIV R0 by the numeric literal 0
with R0 = 10 fails with `running = false` and R0 still 10. -/
theorem claim_c3_witness :
    cpu_run ram_c3 cpu_c3 ⟨0, 4, false⟩ 1 =
      some (false, { cpu_c3 with pc := 0, running := false }, ram_c3) :=
  claim_c3_div_by_zero ram_c3 cpu_c3 0 4 0 (by decide) (by decide) (by decide)
    (Or.inr ⟨by decide, by decide⟩)

/-- Claim C5: whenever an operand word that is decoded as a
general-register index is ≥ 8, the handler fails immediately with
`running` set false and the processor state otherwise untouched — in
particular no general register is mutated.  The conjuncts cover every
instruction that decodes general-register operands: LOADI, LOADM, STOREM,
the seven arithmetic/bitwise ops (destination and register-mode source),
and CMP (both operands). -/
theorem claim_c5_invalid_register_index (ram : RAM) (cpu : CPU) :
    (MAX_REGISTERS ≤ get_value_in_ram ram cpu 1 →
      handle_loadi_execution ram cpu = (false, { cpu with running := false }, ram)) ∧
    (MAX_REGISTERS ≤ get_value_in_ram ram cpu 1 →
      handle_loadm_execution ram cpu = (false, { cpu with running := false }, ram)) ∧
    (MAX_REGISTERS ≤ get_value_in_ram ram cpu 3 →
      handle_storem_execution ram cpu = (false, { cpu with running := false }, ram)) ∧
    (MAX_REGISTERS ≤ get_value_in_ram ram cpu 1 →
      handle_add_execution ram cpu = (false, { cpu with running := false }, ram) ∧
      handle_sub_execution ram cpu = (false, { cpu with running := false }, ram) ∧
      handle_mlp_execution ram cpu = (false, { cpu with running := false }, ram) ∧
      handle_div_execution ram cpu = (false, { cpu with running := false }, ram) ∧
      handle_and_execution ram cpu = (false, { cpu with running := false }, ram) ∧
      handle_or_execution ram cpu = (false, { cpu with running := false }, ram) ∧
      handle_xor_execution ram cpu = (false, { cpu with running := false }, ram)) ∧
    (get_value_in_ram ram cpu 1 < MAX_REGISTERS →
      get_value_in_ram ram cpu 2 = OPERAND_REGISTER →
      MAX_REGISTERS ≤ get_value_in_ram ram cpu 3 →
      handle_add_execution ram cpu = (false, { cpu with running := false }, ram) ∧
      handle_sub_execution ram cpu = (false, { cpu with running := false }, ram) ∧
      handle_mlp_execution ram cpu = (false, { cpu with running := false }, ram) ∧
      handle_div_execution ram cpu = (false, { cpu with running := false }, ram) ∧
      handle_and_execution ram cpu = (false, { cpu with running := false }, ram) ∧
      handle_or_execution ram cpu = (false, { cpu with running := false }, ram) ∧
      handle_xor_execution ram cpu = (false, { cpu with running := false }, ram)) ∧
    (MAX_REGISTERS ≤ get_value_in_ram ram cpu 1 →
      handle_cmp_execution ram cpu = (false, { cpu with running := false }, ram)) ∧
    (get_value_in_ram ram cpu 1 < MAX_REGISTERS →
      MAX_REGISTERS ≤ get_value_in_ram ram cpu 2 →
      handle_cmp_execution ram cpu = (false, { cpu with running := false }, ram)) := by
  refine ⟨fun h => ?_, fun h => ?_, fun h => ?_, fun h => ?_,
    fun hlt hm h => ?_, fun h => ?_, fun hlt h => ?_⟩
  · simp [handle_loadi_execution, is_reg_index_valid_runtime, h]
  · simp [handle_loadm_execution, is_reg_index_valid_runtime, h]
  · simp [handle_storem_execution, is_reg_index_valid_runtime, h]
  · refine ⟨?_, ?_, ?_, ?_, ?_, ?_, ?_⟩ <;>
      simp [handle_add_execution, handle_sub_execution, handle_mlp_execution,
        handle_div_execution, handle_and_execution, handle_or_execution,
        handle_xor_execution, is_reg_index_valid_runtime, h]
  · have hn : ¬ (MAX_REGISTERS ≤ get_value_in_ram ram cpu 1) := by omega
    refine ⟨?_, ?_, ?_, ?_, ?_, ?_, ?_⟩ <;>
      simp [handle_add_execution, handle_sub_execution, handle_mlp_execution,
        handle_div_execution, handle_and_execution, handle_or_execution,
        handle_xor_execution, is_reg_index_valid_runtime, hn, hm, h]
  · simp [handle_cmp_execution, is_reg_index_valid_runtime, h]
  · have hn : ¬ (MAX_REGISTERS ≤ get_value_in_ram ram cpu 1) := by omega
    simp [handle_cmp_execution, is_reg_index_valid_runtime, hn, h]

/-- Witness for C5: `LOADI R9, 5` fails with `running` cleared and no
register mutated. -/
theorem claim_c5_witness :
    handle_loadi_execution ram_c5 cpu_init =
      (false, { cpu_init with running := false }, ram_c5) :=
  (claim_c5_invalid_register_index ram_c5 cpu_init).1 (by decide)

/-- Claim C9: assembling a source program and then running it is
deterministic — identical source lines, identical initial Memory and
identical initial Processor State (with the same step budget) produce
identical results, hence identical final Processor State.  The embedded
pipeline is a pure function of exactly these inputs: the C core keeps no
other state across calls (the label table is rebuilt per assembly; the
logging globals only affect diagnostics). -/
theorem claim_c9_deterministic (lines1 lines2 : List String) (ram1 ram2 : RAM)
    (cpu1 cpu2 : CPU) (fuel : Nat)
    (hl : lines1 = lines2) (hr : ram1 = ram2) (hc : cpu1 = cpu2) :
    assemble_and_run lines1 ram1 cpu1 fuel = assemble_and_run lines2 ram2 cpu2 fuel := by
  subst hl
  subst hr
  subst hc
  rfl

/-- Witness for C9 on Scenario A's program from the freshly initialized
machine. -/
theorem claim_c9_witness :
    assemble_and_run ["LOADI R0, 5", "LOADI R1, 3", "ADD R0, R1", "HALT"]
        zero_ram cpu_init 100 =
      assemble_and_run ["LOADI R0, 5", "LOADI R1, 3", "ADD R0, R1", "HALT"]
        zero_ram cpu_init 100 :=
  claim_c9_deterministic _ _ _ _ _ _ 100 rfl rfl rfl

/-! ### Helper lemmas for claim C1 (word counts in lock-step) -/

theorem c1_asm_loadi (ram : RAM) (cpu : CPU) (o1 o2 : Option (List Char))
    (out : RAM × CPU) (h : handle_loadi_instruction ram cpu o1 o2 = some out) :
    out.2.pc = (cpu.pc + 3) % U32 := by
  unfold handle_loadi_instruction at h
  rcases o1 with _ | o1
  · simp at h
  rcases o2 with _ | o2
  · simp at h
  by_cases hc : parse_register o1 = FAILURE
  · simp [hc] at h
  · simp [hc] at h
    subst h
    simp only [emit, U32]
    omega

theorem c1_asm_loada (ram : RAM) (cpu : CPU) (o1 o2 : Option (List Char))
    (out : RAM × CPU) (h : handle_loada_instruction ram cpu o1 o2 = some out) :
    out.2.pc = (cpu.pc + 3) % U32 := by
  unfold handle_loada_instruction at h
  rcases o1 with _ | o1
  · simp at h
  rcases o2 with _ | o2
  · simp at h
  by_cases hc : parse_address o1 false = FAILURE ∨ parse_address o2 true = FAILURE
  · simp [hc] at h
  · by_cases hv1 : is_addr_index_valid_asm (parse_address o1 false) = false
    · simp [hc, hv1] at h
    · by_cases hv2 : is_addr_literal_valid (toUInt32cast (parse_address o2 true)) = false
      · simp [hc, hv1, hv2] at h
      · simp [hc, hv1, hv2] at h
        subst h
        simp only [emit, U32]
        omega

theorem c1_asm_loadm (ram : RAM) (cpu : CPU) (o1 o2 : Option (List Char))
    (out : RAM × CPU) (h : handle_loadm_instruction ram cpu o1 o2 = some out) :
    out.2.pc = (cpu.pc + 4) % U32 := by
  unfold handle_loadm_instruction at h
  rcases o1 with _ | o1
  · simp at h
  rcases o2 with _ | o2
  · simp at h
  by_cases hc : parse_register o1 = FAILURE ∨ (parse_address_parenthesis o2 false).1 = FAILURE
  · simp [hc] at h
  · by_cases hv : is_reg_index_valid_asm (parse_register o1) = false
    · simp [hc, hv] at h
    · by_cases hb : (parse_address_parenthesis o2 false).2 = true
      · by_cases hl : is_addr_literal_valid
            (toUInt32cast (parse_address_parenthesis o2 false).1) = false
        · simp [hc, hv, hb, hl] at h
        · simp [hc, hv, hb, hl] at h
          subst h
          simp only [emit, U32]
          omega
      · by_cases hl : is_addr_index_valid_asm (parse_address_parenthesis o2 false).1 = false
        · simp [hc, hv, hb, hl] at h
        · simp [hc, hv, hb, hl] at h
          subst h
          simp only [emit, U32]
          omega

theorem c1_asm_storem (ram : RAM) (cpu : CPU) (o1 o2 : Option (List Char))
    (out : RAM × CPU) (h : handle_storem_instruction ram cpu o1 o2 = some out) :
    out.2.pc = (cpu.pc + 4) % U32 := by
  unfold handle_storem_instruction at h
  rcases o1 with _ | o1
  · simp at h
  rcases o2 with _ | o2
  · simp at h
  by_cases hc : parse_register o2 = FAILURE ∨ (parse_address_parenthesis o1 false).1 = FAILURE
  · simp [hc] at h
  · by_cases hv : is_reg_index_valid_asm (parse_register o2) = false
    · simp [hc, hv] at h
    · by_cases hb : (parse_address_parenthesis o1 false).2 = true
      · by_cases hl : is_addr_literal_valid
            (toUInt32cast (parse_address_parenthesis o1 false).1) = false
        · simp [hc, hv, hb, hl] at h
        · simp [hc, hv, hb, hl] at h
          subst h
          simp only [emit, U32]
          omega
      · by_cases hl : is_addr_index_valid_asm (parse_address_parenthesis o1 false).1 = false
        · simp [hc, hv, hb, hl] at h
        · simp [hc, hv, hb, hl] at h
          subst h
          simp only [emit, U32]
          omega

theorem c1_asm_arith (ram : RAM) (cpu : CPU) (opcode : Nat) (o1 o2 : Option (List Char))
    (out : RAM × CPU) (h : handle_arithmetic_instruction ram cpu opcode o1 o2 = some out) :
    out.2.pc = (cpu.pc + 4) % U32 := by
  unfold handle_arithmetic_instruction at h
  rcases o1 with _ | o1
  · simp at h
  rcases o2 with _ | o2
  · simp at h
  by_cases hd : parse_register o1 = FAILURE
  · simp [hd] at h
  · by_cases hv : is_reg_index_valid_asm (parse_register o1) = false
    · simp [hd, hv] at h
    · by_cases hs : parse_register o2 = FAILURE
      · by_cases hng : (strtol0 (strip_hash o2)).2.1 = strip_hash o2 ∨
            (strtol0 (strip_hash o2)).2.1 ≠ []
        · simp [hd, hv, hs, hng] at h
        · by_cases her : (strtol0 (strip_hash o2)).2.2 = true
          · simp [hd, hv, hs, hng, her] at h
          · simp [hd, hv, hs, hng, her] at h
            subst h
            simp only [emit, U32]
            omega
      · simp [hd, hv, hs] at h
        subst h
        simp only [emit, U32]
        omega

theorem c1_asm_cmp (ram : RAM) (cpu : CPU) (o1 o2 : Option (List Char))
    (out : RAM × CPU) (h : handle_cmp_instruction ram cpu o1 o2 = some out) :
    out.2.pc = (cpu.pc + 3) % U32 := by
  unfold handle_cmp_instruction at h
  rcases o1 with _ | o1
  · simp at h
  rcases o2 with _ | o2
  · simp at h
  by_cases hc : parse_register o1 = FAILURE ∨ parse_register o2 = FAILURE
  · simp [hc] at h
  · by_cases hv1 : is_reg_index_valid_asm (parse_register o1) = false
    · simp [hc, hv1] at h
    · by_cases hv2 : is_reg_index_valid_asm (parse_register o2) = false
      · simp [hc, hv1, hv2] at h
      · simp [hc, hv1, hv2] at h
        subst h
        simp only [emit, U32]
        omega

theorem c1_asm_jmp (ram : RAM) (cpu : CPU) (opcode : Nat) (o1 : Option (List Char))
    (labels : List AsmLabel) (out : RAM × CPU)
    (h : handle_jmp_instructions ram cpu opcode o1 labels = some out) :
    out.2.pc = (cpu.pc + 2) % U32 := by
  unfold handle_jmp_instructions at h
  rcases o1 with _ | o1
  · simp at h
  · simp at h
    obtain ⟨-, h2⟩ := h
    subst h2
    simp only [emit, U32]
    omega

theorem c1_exec_loadi (ram : RAM) (cpu : CPU)
    (h : (handle_loadi_execution ram cpu).1 = true) :
    (handle_loadi_execution ram cpu).2.1.pc = (cpu.pc + 3) % U32 := by
  by_cases hc : MAX_REGISTERS ≤ get_value_in_ram ram cpu 1
  · simp [handle_loadi_execution, is_reg_index_valid_runtime, hc] at h
  · simp [handle_loadi_execution, is_reg_index_valid_runtime, hc, increase_pc]

theorem c1_exec_loada (ram : RAM) (cpu : CPU)
    (h : (handle_loada_execution ram cpu).1 = true) :
    (handle_loada_execution ram cpu).2.1.pc = (cpu.pc + 3) % U32 := by
  by_cases hc1 : MAX_ADDRESS_REGISTERS ≤ get_value_in_ram ram cpu 1
  · simp [handle_loada_execution, is_addr_index_valid_runtime, hc1] at h
  · by_cases hc2 : RAM_SIZE ≤ get_value_in_ram ram cpu 2
    · simp [handle_loada_execution, is_addr_index_valid_runtime,
        is_addr_literal_valid_runtime, hc1, hc2] at h
    · simp [handle_loada_execution, is_addr_index_valid_runtime,
        is_addr_literal_valid_runtime, hc1, hc2, increase_pc]

theorem c1_exec_loadm (ram : RAM) (cpu : CPU)
    (h : (handle_loadm_execution ram cpu).1 = true) :
    (handle_loadm_execution ram cpu).2.1.pc = (cpu.pc + 4) % U32 := by
  by_cases hc1 : MAX_REGISTERS ≤ get_value_in_ram ram cpu 1
  · simp [handle_loadm_execution, is_reg_index_valid_runtime, hc1] at h
  · by_cases hm : get_value_in_ram ram cpu 2 = ADDR_LITERAL
    · by_cases hl : RAM_SIZE ≤ get_value_in_ram ram cpu 3
      · simp [handle_loadm_execution, is_reg_index_valid_runtime, hc1, hm, hl,
          is_addr_literal_valid_runtime] at h
      · by_cases hma : is_memory_access_valid (get_value_in_ram ram cpu 3) 1 = true
        · simp [handle_loadm_execution, is_reg_index_valid_runtime, hc1, hm, hl,
            is_addr_literal_valid_runtime, is_memory_access_valid_runtime, hma,
            increase_pc]
        · simp [handle_loadm_execution, is_reg_index_valid_runtime, hc1, hm, hl,
            is_addr_literal_valid_runtime, is_memory_access_valid_runtime, hma] at h
    · by_cases ha : MAX_ADDRESS_REGISTERS ≤ get_value_in_ram ram cpu 3
      · simp [handle_loadm_execution, is_reg_index_valid_runtime, hc1, hm, ha,
          is_addr_index_valid_runtime] at h
      · by_cases hma : is_memory_access_valid
            (cpu.address_registers[get_value_in_ram ram cpu 3]?.getD 0) 1 = true
        · simp [handle_loadm_execution, is_reg_index_valid_runtime, hc1, hm, ha,
            is_addr_index_valid_runtime, is_memory_access_valid_runtime, hma,
            increase_pc]
        · simp [handle_loadm_execution, is_reg_index_valid_runtime, hc1, hm, ha,
            is_addr_index_valid_runtime, is_memory_access_valid_runtime, hma] at h

theorem c1_exec_storem (ram : RAM) (cpu : CPU)
    (h : (handle_storem_execution ram cpu).1 = true) :
    (handle_storem_execution ram cpu).2.1.pc = (cpu.pc + 4) % U32 := by
  by_cases hc1 : MAX_REGISTERS ≤ get_value_in_ram ram cpu 3
  · simp [handle_storem_execution, is_reg_index_valid_runtime, hc1] at h
  · by_cases hm : get_value_in_ram ram cpu 2 = ADDR_LITERAL
    · by_cases hl : RAM_SIZE ≤ get_value_in_ram ram cpu 1
      · simp [handle_storem_execution, is_reg_index_valid_runtime, hc1, hm, hl,
          is_addr_literal_valid_runtime] at h
      · by_cases hma : is_memory_access_valid (get_value_in_ram ram cpu 1) 1 = true
        · simp [handle_storem_execution, is_reg_index_valid_runtime, hc1, hm, hl,
            is_addr_literal_valid_runtime, is_memory_access_valid_runtime, hma,
            increase_pc]
        · simp [handle_storem_execution, is_reg_index_valid_runtime, hc1, hm, hl,
            is_addr_literal_valid_runtime, is_memory_access_valid_runtime, hma] at h
    · by_cases ha : MAX_ADDRESS_REGISTERS ≤ get_value_in_ram ram cpu 1
      · simp [handle_storem_execution, is_reg_index_valid_runtime, hc1, hm, ha,
          is_addr_index_valid_runtime] at h
      · by_cases hma : is_memory_access_valid
            (cpu.address_registers[get_value_in_ram ram cpu 1]?.getD 0) 1 = true
        · simp [handle_storem_execution, is_reg_index_valid_runtime, hc1, hm, ha,
            is_addr_index_valid_runtime, is_memory_access_valid_runtime, hma,
            increase_pc]
        · simp [handle_storem_execution, is_reg_index_valid_runtime, hc1, hm, ha,
            is_addr_index_valid_runtime, is_memory_access_valid_runtime, hma] at h

theorem c1_exec_add (ram : RAM) (cpu : CPU)
    (h : (handle_add_execution ram cpu).1 = true) :
    (handle_add_execution ram cpu).2.1.pc = (cpu.pc + 4) % U32 := by
  by_cases hc1 : MAX_REGISTERS ≤ get_value_in_ram ram cpu 1
  · simp [handle_add_execution, is_reg_index_valid_runtime, hc1] at h
  · by_cases hm0 : get_value_in_ram ram cpu 2 = OPERAND_REGISTER
    · by_cases hc2 : MAX_REGISTERS ≤ get_value_in_ram ram cpu 3
      · simp [handle_add_execution, is_reg_index_valid_runtime, hc1, hm0, hc2] at h
      · simp [handle_add_execution, is_reg_index_valid_runtime, hc1, hm0, hc2,
          increase_pc]
    · by_cases hm1 : get_value_in_ram ram cpu 2 = OPERAND_NUMERIC
      · simp [handle_add_execution, is_reg_index_valid_runtime, hc1, hm0, hm1,
          increase_pc, OPERAND_REGISTER, OPERAND_NUMERIC]
      · simp [handle_add_execution, is_reg_index_valid_runtime, hc1, hm0, hm1] at h

theorem c1_exec_sub (ram : RAM) (cpu : CPU)
    (h : (handle_sub_execution ram cpu).1 = true) :
    (handle_sub_execution ram cpu).2.1.pc = (cpu.pc + 4) % U32 := by
  by_cases hc1 : MAX_REGISTERS ≤ get_value_in_ram ram cpu 1
  · simp [handle_sub_execution, is_reg_index_valid_runtime, hc1] at h
  · by_cases hm0 : get_value_in_ram ram cpu 2 = OPERAND_REGISTER
    · by_cases hc2 : MAX_REGISTERS ≤ get_value_in_ram ram cpu 3
      · simp [handle_sub_execution, is_reg_index_valid_runtime, hc1, hm0, hc2] at h
      · simp [handle_sub_execution, is_reg_index_valid_runtime, hc1, hm0, hc2,
          increase_pc]
    · by_cases hm1 : get_value_in_ram ram cpu 2 = OPERAND_NUMERIC
      · simp [handle_sub_execution, is_reg_index_valid_runtime, hc1, hm0, hm1,
          increase_pc, OPERAND_REGISTER, OPERAND_NUMERIC]
      · simp [handle_sub_execution, is_reg_index_valid_runtime, hc1, hm0, hm1] at h

theorem c1_exec_mlp (ram : RAM) (cpu : CPU)
    (h : (handle_mlp_execution ram cpu).1 = true) :
    (handle_mlp_execution ram cpu).2.1.pc = (cpu.pc + 4) % U32 := by
  by_cases hc1 : MAX_REGISTERS ≤ get_value_in_ram ram cpu 1
  · simp [handle_mlp_execution, is_reg_index_valid_runtime, hc1] at h
  · by_cases hm0 : get_value_in_ram ram cpu 2 = OPERAND_REGISTER
    · by_cases hc2 : MAX_REGISTERS ≤ get_value_in_ram ram cpu 3
      · simp [handle_mlp_execution, is_reg_index_valid_runtime, hc1, hm0, hc2] at h
      · simp [handle_mlp_execution, is_reg_index_valid_runtime, hc1, hm0, hc2,
          increase_pc]
    · by_cases hm1 : get_value_in_ram ram cpu 2 = OPERAND_NUMERIC
      · simp [handle_mlp_execution, is_reg_index_valid_runtime, hc1, hm0, hm1,
          increase_pc, OPERAND_REGISTER, OPERAND_NUMERIC]
      · simp [handle_mlp_execution, is_reg_index_valid_runtime, hc1, hm0, hm1] at h

theorem c1_exec_div (ram : RAM) (cpu : CPU)
    (h : (handle_div_execution ram cpu).1 = true) :
    (handle_div_execution ram cpu).2.1.pc = (cpu.pc + 4) % U32 := by
  by_cases hc1 : MAX_REGISTERS ≤ get_value_in_ram ram cpu 1
  · simp [handle_div_execution, is_reg_index_valid_runtime, hc1] at h
  · by_cases hm0 : get_value_in_ram ram cpu 2 = OPERAND_REGISTER
    · by_cases hc2 : MAX_REGISTERS ≤ get_value_in_ram ram cpu 3
      · simp [handle_div_execution, is_reg_index_valid_runtime, hc1, hm0, hc2] at h
      · by_cases hz : cpu.registers[get_value_in_ram ram cpu 3]?.getD 0 = 0
        · simp [handle_div_execution, is_reg_index_valid_runtime, hc1, hm0, hc2, hz] at h
        · simp [handle_div_execution, is_reg_index_valid_runtime, hc1, hm0, hc2, hz,
            increase_pc]
    · by_cases hm1 : get_value_in_ram ram cpu 2 = OPERAND_NUMERIC
      · by_cases hz : get_value_in_ram ram cpu 3 = 0
        · simp [handle_div_execution, is_reg_index_valid_runtime, hc1, hm0, hm1, hz,
            OPERAND_REGISTER, OPERAND_NUMERIC] at h
        · simp [handle_div_execution, is_reg_index_valid_runtime, hc1, hm0, hm1, hz,
            increase_pc, OPERAND_REGISTER, OPERAND_NUMERIC]
      · simp [handle_div_execution, is_reg_index_valid_runtime, hc1, hm0, hm1] at h

theorem c1_exec_and (ram : RAM) (cpu : CPU)
    (h : (handle_and_execution ram cpu).1 = true) :
    (handle_and_execution ram cpu).2.1.pc = (cpu.pc + 4) % U32 := by
  by_cases hc1 : MAX_REGISTERS ≤ get_value_in_ram ram cpu 1
  · simp [handle_and_execution, is_reg_index_valid_runtime, hc1] at h
  · by_cases hm0 : get_value_in_ram ram cpu 2 = OPERAND_REGISTER
    · by_cases hc2 : MAX_REGISTERS ≤ get_value_in_ram ram cpu 3
      · simp [handle_and_execution, is_reg_index_valid_runtime, hc1, hm0, hc2] at h
      · simp [handle_and_execution, is_reg_index_valid_runtime, hc1, hm0, hc2,
          increase_pc]
    · by_cases hm1 : get_value_in_ram ram cpu 2 = OPERAND_NUMERIC
      · simp [handle_and_execution, is_reg_index_valid_runtime, hc1, hm0, hm1,
          increase_pc, OPERAND_REGISTER, OPERAND_NUMERIC]
      · simp [handle_and_execution, is_reg_index_valid_runtime, hc1, hm0, hm1] at h

theorem c1_exec_or (ram : RAM) (cpu : CPU)
    (h : (handle_or_execution ram cpu).1 = true) :
    (handle_or_execution ram cpu).2.1.pc = (cpu.pc + 4) % U32 := by
  by_cases hc1 : MAX_REGISTERS ≤ get_value_in_ram ram cpu 1
  · simp [handle_or_execution, is_reg_index_valid_runtime, hc1] at h
  · by_cases hm0 : get_value_in_ram ram cpu 2 = OPERAND_REGISTER
    · by_cases hc2 : MAX_REGISTERS ≤ get_value_in_ram ram cpu 3
      · simp [handle_or_execution, is_reg_index_valid_runtime, hc1, hm0, hc2] at h
      · simp [handle_or_execution, is_reg_index_valid_runtime, hc1, hm0, hc2,
          increase_pc]
    · by_cases hm1 : get_value_in_ram ram cpu 2 = OPERAND_NUMERIC
      · simp [handle_or_execution, is_reg_index_valid_runtime, hc1, hm0, hm1,
          increase_pc, OPERAND_REGISTER, OPERAND_NUMERIC]
      · simp [handle_or_execution, is_reg_index_valid_runtime, hc1, hm0, hm1] at h

theorem c1_exec_xor (ram : RAM) (cpu : CPU)
    (h : (handle_xor_execution ram cpu).1 = true) :
    (handle_xor_execution ram cpu).2.1.pc = (cpu.pc + 4) % U32 := by
  by_cases hc1 : MAX_REGISTERS ≤ get_value_in_ram ram cpu 1
  · simp [handle_xor_execution, is_reg_index_valid_runtime, hc1] at h
  · by_cases hm0 : get_value_in_ram ram cpu 2 = OPERAND_REGISTER
    · by_cases hc2 : MAX_REGISTERS ≤ get_value_in_ram ram cpu 3
      · simp [handle_xor_execution, is_reg_index_valid_runtime, hc1, hm0, hc2] at h
      · simp [handle_xor_execution, is_reg_index_valid_runtime, hc1, hm0, hc2,
          increase_pc]
    · by_cases hm1 : get_value_in_ram ram cpu 2 = OPERAND_NUMERIC
      · simp [handle_xor_execution, is_reg_index_valid_runtime, hc1, hm0, hm1,
          increase_pc, OPERAND_REGISTER, OPERAND_NUMERIC]
      · simp [handle_xor_execution, is_reg_index_valid_runtime, hc1, hm0, hm1] at h

theorem c1_exec_cmp (ram : RAM) (cpu : CPU)
    (h : (handle_cmp_execution ram cpu).1 = true) :
    (handle_cmp_execution ram cpu).2.1.pc = (cpu.pc + 3) % U32 := by
  by_cases hc1 : MAX_REGISTERS ≤ get_value_in_ram ram cpu 1
  · simp [handle_cmp_execution, is_reg_index_valid_runtime, hc1] at h
  · by_cases hc2 : MAX_REGISTERS ≤ get_value_in_ram ram cpu 2
    · simp [handle_cmp_execution, is_reg_index_valid_runtime, hc1, hc2] at h
    · simp [handle_cmp_execution, is_reg_index_valid_runtime, hc1, hc2, increase_pc]

theorem c1_exec_jz (ram : RAM) (cpu : CPU) (hz : cpu.zero_flag = false)
    (h : (handle_jz_execution ram cpu).1 = true) :
    (handle_jz_execution ram cpu).2.1.pc = (cpu.pc + 2) % U32 := by
  by_cases hc : RAM_SIZE ≤ get_value_in_ram ram cpu 1
  · simp [handle_jz_execution, is_addr_literal_valid_runtime, hc] at h
  · simp [handle_jz_execution, is_addr_literal_valid_runtime, hc, hz, increase_pc]

theorem c1_exec_jnz (ram : RAM) (cpu : CPU) (hz : cpu.zero_flag = true)
    (h : (handle_jnz_execution ram cpu).1 = true) :
    (handle_jnz_execution ram cpu).2.1.pc = (cpu.pc + 2) % U32 := by
  by_cases hc : RAM_SIZE ≤ get_value_in_ram ram cpu 1
  · simp [handle_jnz_execution, is_addr_literal_valid_runtime, hc] at h
  · simp [handle_jnz_execution, is_addr_literal_valid_runtime, hc, hz, increase_pc]

theorem c1_run_halt (ram : RAM) (cpu : CPU) (endA fuel : Nat)
    (hr : cpu.running = true) (hp : cpu.pc ≠ endA)
    (h0 : get_value_in_ram ram cpu 0 = ISA_HALT) :
    cpu_run_go endA (fuel + 2) ram cpu = some (true, { cpu with running := false }, ram) := by
  simp only [cpu_run_go]
  rw [if_pos ⟨hr, hp⟩]
  simp [h0, ISA_LOADI, ISA_LOADA, ISA_LOADM, ISA_STOREM, ISA_ADD, ISA_SUB, ISA_MLP,
    ISA_DIV, ISA_AND, ISA_OR, ISA_XOR, ISA_JMP, ISA_JZ, ISA_JNZ, ISA_CMP, ISA_HALT]

/-- The sizing/emission/advance contract of claim C1, as the code
actually implements it: pass-1 sizing gives 3/3/4/4/4/2/1 words for
load-immediate, load-address, load-from-memory, store-to-memory, the
seven arithmetic/bitwise ops, the three jumps and halt — but only 1 word
for compare, because the pass-1 switch has no `ISA_CMP` case and falls
into its `default` arm.  Pass 2 always advances the emission cursor by
the per-opcode word count (3/3/4/4/4/3/2/1, compare emitting 3), and the
interpreter advances the PC by that same count on every successful
non-taken execution; halt stops the run with the PC unchanged. -/
theorem sizing_contract_lock_step :
    (instruction_size ((ISA_LOADI : Nat) : Int) = 3 ∧
     instruction_size ((ISA_LOADA : Nat) : Int) = 3 ∧
     instruction_size ((ISA_LOADM : Nat) : Int) = 4 ∧
     instruction_size ((ISA_STOREM : Nat) : Int) = 4 ∧
     instruction_size ((ISA_ADD : Nat) : Int) = 4 ∧
     instruction_size ((ISA_SUB : Nat) : Int) = 4 ∧
     instruction_size ((ISA_MLP : Nat) : Int) = 4 ∧
     instruction_size ((ISA_DIV : Nat) : Int) = 4 ∧
     instruction_size ((ISA_AND : Nat) : Int) = 4 ∧
     instruction_size ((ISA_OR : Nat) : Int) = 4 ∧
     instruction_size ((ISA_XOR : Nat) : Int) = 4 ∧
     instruction_size ((ISA_JMP : Nat) : Int) = 2 ∧
     instruction_size ((ISA_JZ : Nat) : Int) = 2 ∧
     instruction_size ((ISA_JNZ : Nat) : Int) = 2 ∧
     instruction_size ((ISA_CMP : Nat) : Int) = 1 ∧
     instruction_size ((ISA_HALT : Nat) : Int) = 1) ∧
    (∀ ram cpu o1 o2 out, handle_loadi_instruction ram cpu o1 o2 = some out →
      out.2.pc = (cpu.pc + 3) % U32) ∧
    (∀ ram cpu o1 o2 out, handle_loada_instruction ram cpu o1 o2 = some out →
      out.2.pc = (cpu.pc + 3) % U32) ∧
    (∀ ram cpu o1 o2 out, handle_loadm_instruction ram cpu o1 o2 = some out →
      out.2.pc = (cpu.pc + 4) % U32) ∧
    (∀ ram cpu o1 o2 out, handle_storem_instruction ram cpu o1 o2 = some out →
      out.2.pc = (cpu.pc + 4) % U32) ∧
    (∀ ram cpu opcode o1 o2 out,
      handle_arithmetic_instruction ram cpu opcode o1 o2 = some out →
      out.2.pc = (cpu.pc + 4) % U32) ∧
    (∀ ram cpu o1 o2 out, handle_cmp_instruction ram cpu o1 o2 = some out →
      out.2.pc = (cpu.pc + 3) % U32) ∧
    (∀ ram cpu opcode o1 labels out,
      handle_jmp_instructions ram cpu opcode o1 labels = some out →
      out.2.pc = (cpu.pc + 2) % U32) ∧
    (∀ ram cpu, (emit ram cpu ISA_HALT).2.pc = (cpu.pc + 1) % U32) ∧
    (∀ ram cpu, (handle_loadi_execution ram cpu).1 = true →
      (handle_loadi_execution ram cpu).2.1.pc = (cpu.pc + 3) % U32) ∧
    (∀ ram cpu, (handle_loada_execution ram cpu).1 = true →
      (handle_loada_execution ram cpu).2.1.pc = (cpu.pc + 3) % U32) ∧
    (∀ ram cpu, (handle_loadm_execution ram cpu).1 = true →
      (handle_loadm_execution ram cpu).2.1.pc = (cpu.pc + 4) % U32) ∧
    (∀ ram cpu, (handle_storem_execution ram cpu).1 = true →
      (handle_storem_execution ram cpu).2.1.pc = (cpu.pc + 4) % U32) ∧
    (∀ ram cpu, (handle_add_execution ram cpu).1 = true →
      (handle_add_execution ram cpu).2.1.pc = (cpu.pc + 4) % U32) ∧
    (∀ ram cpu, (handle_sub_execution ram cpu).1 = true →
      (handle_sub_execution ram cpu).2.1.pc = (cpu.pc + 4) % U32) ∧
    (∀ ram cpu, (handle_mlp_execution ram cpu).1 = true →
      (handle_mlp_execution ram cpu).2.1.pc = (cpu.pc + 4) % U32) ∧
    (∀ ram cpu, (handle_div_execution ram cpu).1 = true →
      (handle_div_execution ram cpu).2.1.pc = (cpu.pc + 4) % U32) ∧
    (∀ ram cpu, (handle_and_execution ram cpu).1 = true →
      (handle_and_execution ram cpu).2.1.pc = (cpu.pc + 4) % U32) ∧
    (∀ ram cpu, (handle_or_execution ram cpu).1 = true →
      (handle_or_execution ram cpu).2.1.pc = (cpu.pc + 4) % U32) ∧
    (∀ ram cpu, (handle_xor_execution ram cpu).1 = true →
      (handle_xor_execution ram cpu).2.1.pc = (cpu.pc + 4) % U32) ∧
    (∀ ram cpu, (handle_cmp_execution ram cpu).1 = true →
      (handle_cmp_execution ram cpu).2.1.pc = (cpu.pc + 3) % U32) ∧
    (∀ ram cpu, cpu.zero_flag = false → (handle_jz_execution ram cpu).1 = true →
      (handle_jz_execution ram cpu).2.1.pc = (cpu.pc + 2) % U32) ∧
    (∀ ram cpu, cpu.zero_flag = true → (handle_jnz_execution ram cpu).1 = true →
      (handle_jnz_execution ram cpu).2.1.pc = (cpu.pc + 2) % U32) ∧
    (∀ ram cpu endA fuel, cpu.running = true → cpu.pc ≠ endA →
      get_value_in_ram ram cpu 0 = ISA_HALT →
      cpu_run_go endA (fuel + 2) ram cpu =
        some (true, { cpu with running := false }, ram)) :=
  ⟨by decide,
   fun ram cpu o1 o2 out h => c1_asm_loadi ram cpu o1 o2 out h,
   fun ram cpu o1 o2 out h => c1_asm_loada ram cpu o1 o2 out h,
   fun ram cpu o1 o2 out h => c1_asm_loadm ram cpu o1 o2 out h,
   fun ram cpu o1 o2 out h => c1_asm_storem ram cpu o1 o2 out h,
   fun ram cpu opcode o1 o2 out h => c1_asm_arith ram cpu opcode o1 o2 out h,
   fun ram cpu o1 o2 out h => c1_asm_cmp ram cpu o1 o2 out h,
   fun ram cpu opcode o1 labels out h => c1_asm_jmp ram cpu opcode o1 labels out h,
   fun _ _ => rfl,
   fun ram cpu h => c1_exec_loadi ram cpu h,
   fun ram cpu h => c1_exec_loada ram cpu h,
   fun ram cpu h => c1_exec_loadm ram cpu h,
   fun ram cpu h => c1_exec_storem ram cpu h,
   fun ram cpu h => c1_exec_add ram cpu h,
   fun ram cpu h => c1_exec_sub ram cpu h,
   fun ram cpu h => c1_exec_mlp ram cpu h,
   fun ram cpu h => c1_exec_div ram cpu h,
   fun ram cpu h => c1_exec_and ram cpu h,
   fun ram cpu h => c1_exec_or ram cpu h,
   fun ram cpu h => c1_exec_xor ram cpu h,
   fun ram cpu h => c1_exec_cmp ram cpu h,
   fun ram cpu hz h => c1_exec_jz ram cpu hz h,
   fun ram cpu hz h => c1_exec_jnz ram cpu hz h,
   fun ram cpu endA fuel hr hp h0 => c1_run_halt ram cpu endA fuel hr hp h0⟩

/-- Claim C1 (code bug): the pass-1 sizing switch in `assemble` has no
`ISA_CMP` case, so compare is sized at 1 word (the `default` arm) while
pass 2 emits 3 words for it and the interpreter advances the PC by 3.
Consequence at the failing input `JMP lab / CMP R0, R1 / lab: HALT`:
assembly succeeds and emits the jump target 3 (the Pass-1 address of
`lab`), although the halt is actually emitted at address 5 — the jump
lands inside the CMP encoding. -/
theorem claim_c1_code_bug :
    instruction_size ((ISA_CMP : Nat) : Int) = 1 ∧
    (handle_cmp_instruction zero_ram cpu_init (some ['R', '0']) (some ['R', '1'])).map
        (fun out => out.2.pc) = some 3 ∧
    (handle_cmp_execution ram_c6 cpu_c6).2.1.pc = 3 ∧
    (assemble zero_ram cpu_init ["JMP lab", "CMP R0, R1", "lab: HALT"]).1.error = false ∧
    (assemble zero_ram cpu_init ["JMP lab", "CMP R0, R1", "lab: HALT"]).2.1.cells 1 = 3 ∧
    (assemble zero_ram cpu_init ["JMP lab", "CMP R0, R1", "lab: HALT"]).2.1.cells 5 =
      ISA_HALT ∧
    (3 : Nat) ≠ 5 := by
  refine ⟨by decide, by decide, by decide, by decide, by decide, by decide, by decide⟩

end CpuEmu
